import Mathlib

/-!
Verification development for the exercise-intensity server
(`firebase.service.ts` of the arduino_server repository).

JavaScript numbers are modelled by `JSNum`: an exact real payload plus the
three non-finite IEEE values `NaN`, `Infinity` and `-Infinity`.  All arithmetic
operators below mirror the ECMAScript semantics of the operations the source
actually performs (NaN absorption, infinity arithmetic, `Math.min`/`Math.max`
NaN propagation, `Math.sqrt` of a negative number, `Math.round`, `**`).
The real payload is exact rather than double-precision; none of the verified
properties depends on floating-point rounding error.
-/

set_option autoImplicit false

noncomputable section
open Classical

inductive JSNum where
  | nan : JSNum
  | inf : JSNum
  | ninf : JSNum
  | num (x : ℝ) : JSNum

namespace JSNum

/-- JS `+`. -/
def add : JSNum → JSNum → JSNum
  | nan, _ => nan
  | _, nan => nan
  | inf, ninf => nan
  | ninf, inf => nan
  | inf, _ => inf
  | _, inf => inf
  | ninf, _ => ninf
  | _, ninf => ninf
  | num a, num b => num (a + b)

/-- JS `-` (binary). -/
def sub : JSNum → JSNum → JSNum
  | nan, _ => nan
  | _, nan => nan
  | inf, inf => nan
  | ninf, ninf => nan
  | inf, _ => inf
  | _, inf => ninf
  | ninf, _ => ninf
  | _, ninf => inf
  | num a, num b => num (a - b)

/-- JS `*`.  Infinity times zero is NaN. -/
def mul : JSNum → JSNum → JSNum
  | nan, _ => nan
  | _, nan => nan
  | inf, inf => inf
  | inf, ninf => ninf
  | ninf, inf => ninf
  | ninf, ninf => inf
  | inf, num b => if 0 < b then inf else if b < 0 then ninf else nan
  | num a, inf => if 0 < a then inf else if a < 0 then ninf else nan
  | ninf, num b => if 0 < b then ninf else if b < 0 then inf else nan
  | num a, ninf => if 0 < a then ninf else if a < 0 then inf else nan
  | num a, num b => num (a * b)

/-- JS `/`.  Every division performed by the source has a strictly positive
divisor; the zero-divisor rows below follow the `+0` behaviour of JS
(the model does not carry a signed zero). -/
def div : JSNum → JSNum → JSNum
  | nan, _ => nan
  | _, nan => nan
  | inf, inf => nan
  | inf, ninf => nan
  | ninf, inf => nan
  | ninf, ninf => nan
  | inf, num b => if b < 0 then ninf else inf
  | ninf, num b => if b < 0 then inf else ninf
  | num _, inf => num 0
  | num _, ninf => num 0
  | num a, num b =>
      if b = 0 then (if a = 0 then nan else if 0 < a then inf else ninf)
      else num (a / b)

/-- JS `Math.abs`. -/
def jsAbs : JSNum → JSNum
  | nan => nan
  | inf => inf
  | ninf => inf
  | num x => num |x|

/-- JS `Math.max` (binary): NaN propagates. -/
def jsMax : JSNum → JSNum → JSNum
  | nan, _ => nan
  | _, nan => nan
  | inf, _ => inf
  | _, inf => inf
  | ninf, b => b
  | a, ninf => a
  | num a, num b => num (max a b)

/-- JS `Math.min` (binary): NaN propagates. -/
def jsMin : JSNum → JSNum → JSNum
  | nan, _ => nan
  | _, nan => nan
  | ninf, _ => ninf
  | _, ninf => ninf
  | inf, b => b
  | a, inf => a
  | num a, num b => num (min a b)

/-- JS `Math.sqrt`: NaN on negative arguments and on `-Infinity`. -/
def jsSqrt : JSNum → JSNum
  | nan => nan
  | inf => inf
  | ninf => nan
  | num x => if x < 0 then nan else num (Real.sqrt x)

/-- JS `x ** 0.8` (the only exponent the source uses).  A negative finite
base with a non-integer exponent gives NaN; `(-Infinity) ** 0.8` is
`Infinity`. -/
def pow08 : JSNum → JSNum
  | nan => nan
  | inf => inf
  | ninf => inf
  | num x => if x < 0 then nan else num (x ^ (0.8 : ℝ))

/-- JS `Math.round`: round half toward positive infinity. -/
def jsRound : JSNum → JSNum
  | nan => nan
  | inf => inf
  | ninf => ninf
  | num x => num ((⌊x + 1 / 2⌋ : ℤ) : ℝ)

/-- JS `>=`: any comparison involving NaN is false. -/
def jsGe : JSNum → JSNum → Prop
  | num a, num b => b ≤ a
  | inf, inf => True
  | inf, ninf => True
  | inf, num _ => True
  | num _, ninf => True
  | ninf, ninf => True
  | _, _ => False

/-- JS `>`: any comparison involving NaN is false. -/
def jsGt : JSNum → JSNum → Prop
  | num a, num b => b < a
  | inf, ninf => True
  | inf, num _ => True
  | num _, ninf => True
  | _, _ => False

/-- JS `<`. -/
def jsLt : JSNum → JSNum → Prop
  | num a, num b => a < b
  | ninf, inf => True
  | ninf, num _ => True
  | num _, inf => True
  | _, _ => False

/-- JS falsiness of a number: `NaN`, `0` (and `-0`) are falsy. -/
def isFalsy : JSNum → Prop
  | nan => True
  | num x => x = 0
  | _ => False

/-- JS `isNaN` on a value already of number type. -/
def isNaNb : JSNum → Bool
  | nan => true
  | _ => false

/-- The value is an actual real number (not NaN, not ±Infinity). -/
def isNum : JSNum → Prop
  | num _ => True
  | _ => False

/-- Observer used to state order-theoretic properties: the real payload of a
finite value, `0` otherwise. -/
def valOr0 : JSNum → ℝ
  | num x => x
  | _ => 0

end JSNum

/-- JS `x || fallback` for a number `x` and real fallback. -/
def jsOrElse (v : JSNum) (d : ℝ) : JSNum :=
  if v.isFalsy then JSNum.num d else v

/-- JS `x || fallback` where `x` may also be absent (`undefined`). -/
def jsOptOrElse (v : Option JSNum) (d : ℝ) : JSNum :=
  match v with
  | none => JSNum.num d
  | some w => jsOrElse w d

/-- Reading an optional property in an arithmetic position: `undefined`
behaves as NaN. -/
def jsVal (v : Option JSNum) : JSNum :=
  v.getD JSNum.nan


/-!
## The service (`FirebaseService`, firebase.service.ts)

`computeHeatIndex` and `getBMISensitivityFactor` are the two pure helpers;
`sessionStore` and `intensityHistory` are the two in-memory keyed stores.
The Firestore collaborator appears only in `startSession` (user-profile
lookup, modelled by `ProfileLookup`) and in `saveSession` (a write the core
does not observe).  `memoryStore` is a write-only cache of the last payload
and is not needed by any verified property, so it is omitted from the state.
-/

/-- The service's `computeHeatIndex(t, rh)`: the NOAA Rothfusz regression, translated
line by line.  `none` stands for a `null`/`undefined` argument (`t == null`
is loose equality); a NaN argument is `some .nan` and takes the formula
path. -/
def computeHeatIndex (t rh : Option JSNum) : JSNum :=
  match t with
  | none => JSNum.num 0
  | some tv =>
    match rh with
    | none => tv
    | some rhv =>
      let T := tv
      let R := JSNum.jsMin (JSNum.num 100) (JSNum.jsMax (JSNum.num 0) rhv)
      let Tf := JSNum.add (JSNum.div (JSNum.mul T (JSNum.num 9)) (JSNum.num 5)) (JSNum.num 32)
      let HIf :=
        JSNum.sub
          (JSNum.add
            (JSNum.add
              (JSNum.sub
                (JSNum.sub
                  (JSNum.sub
                    (JSNum.add
                      (JSNum.add (JSNum.num (-42.379))
                        (JSNum.mul (JSNum.num 2.04901523) Tf))
                      (JSNum.mul (JSNum.num 10.14333127) R))
                    (JSNum.mul (JSNum.mul (JSNum.num 0.22475541) Tf) R))
                  (JSNum.mul (JSNum.mul (JSNum.num 0.00683783) Tf) Tf))
                (JSNum.mul (JSNum.mul (JSNum.num 0.05481717) R) R))
              (JSNum.mul (JSNum.mul (JSNum.mul (JSNum.num 0.00122874) Tf) Tf) R))
            (JSNum.mul (JSNum.mul (JSNum.mul (JSNum.num 0.00085282) Tf) R) R))
          (JSNum.mul
            (JSNum.mul (JSNum.mul (JSNum.mul (JSNum.num 0.00000199) Tf) Tf) R) R)
      let HIc := JSNum.div (JSNum.mul (JSNum.sub HIf (JSNum.num 32)) (JSNum.num 5)) (JSNum.num 9)
      JSNum.div (JSNum.jsRound (JSNum.mul HIc (JSNum.num 10))) (JSNum.num 10)

/-- Modelled from the spec: the Rothfusz regression polynomial over
Fahrenheit temperature and (already clamped) relative humidity, as §4.1
states it.  Used only to compare the code's heat-index computation against
the specification's wording. -/
def rothfuszF (Tf R : ℝ) : ℝ :=
  -42.379 + 2.04901523 * Tf + 10.14333127 * R - 0.22475541 * Tf * R -
    0.00683783 * Tf * Tf - 0.05481717 * R * R + 0.00122874 * Tf * Tf * R +
    0.00085282 * Tf * R * R - 0.00000199 * Tf * Tf * R * R

/-- Modelled from the spec: convert to Fahrenheit, apply the regression,
convert back to Celsius, round to one decimal place. -/
def specHeatIndex (Tc R : ℝ) : ℝ :=
  let Tf := Tc * 9 / 5 + 32
  let HIc := (rothfuszF Tf R - 32) * 5 / 9
  ((⌊HIc * 10 + 1 / 2⌋ : ℤ) : ℝ) / 10

/-- The service's `getBMISensitivityFactor(bmi)`: all four comparisons are false on NaN
(and on `Infinity`), so those fall through to `1.3`. -/
def getBMISensitivityFactor : JSNum → ℝ
  | .ninf => 0.8
  | .num b => if b < 18.5 then 0.8 else if b < 25.0 then 1.0 else if b < 30.0 then 1.2 else 1.3
  | _ => 1.3

/-- The baseline object a session stores: the spread of the client's
baseline (whose four fields may be absent) plus the always-recomputed `hi`. -/
structure BaselineObj where
  temp : Option JSNum
  hum : Option JSNum
  gas : Option JSNum
  hr : Option JSNum
  hi : JSNum

/-- The `UserSessionState` record. -/
structure SessionState where
  startTime : ℕ
  baseline : BaselineObj
  bmi : JSNum
  plannedIntensity : JSNum

/-- The two per-user keyed stores of the service. -/
structure ServerState where
  sessionStore : String → Option SessionState
  intensityHistory : String → Option (List JSNum)

/-- The client-supplied baseline of `startSession`'s body. -/
structure BaselineInput where
  temp : Option JSNum
  hum : Option JSNum
  gas : Option JSNum
  hr : Option JSNum

/-- Outcome of the Firestore user-profile lookup in `startSession`:
the `get` call throws, or the document does not exist, or it exists with
possibly-absent `height`/`weight` fields. -/
inductive ProfileLookup where
  | failure : ProfileLookup
  | missing : ProfileLookup
  | found (height weight : Option JSNum) : ProfileLookup

/-- The service's `startSession(body)`.  `bmi` starts at `22.0`; only an existing profile
document with positive height replaces it.  A thrown lookup is swallowed by
the empty catch.  The new session overwrites any existing one. -/
def startSession (st : ServerState) (userId : String)
    (plannedIntensity : Option JSNum) (baseline : BaselineInput)
    (profile : ProfileLookup) (now : ℕ) : ServerState × Bool :=
  let bmi : JSNum :=
    match profile with
    | .failure => JSNum.num 22
    | .missing => JSNum.num 22
    | .found height weight =>
        let h := JSNum.div (jsOptOrElse height 175) (JSNum.num 100)
        let w := jsOptOrElse weight 70
        if JSNum.jsGt h (JSNum.num 0) then JSNum.div w (JSNum.mul h h) else JSNum.num 22
  let sess : SessionState :=
    { startTime := now
      baseline :=
        { temp := baseline.temp
          hum := baseline.hum
          gas := baseline.gas
          hr := baseline.hr
          hi := computeHeatIndex baseline.temp baseline.hum }
      bmi := bmi
      plannedIntensity := jsOptOrElse plannedIntensity 1 }
  ({ st with sessionStore := Function.update st.sessionStore userId (some sess) }, true)

/-- The baseline validity check of `saveEnvironmentData`: `hi`, `gas`, `hr`
must be of number type and not NaN.  (`session.baseline` itself and its `hi`
are always present: every stored session is built by `startSession`.)
`Infinity` passes this check. -/
def baselineInvalid (b : BaselineObj) : Prop :=
  b.gas = none ∨ b.hr = none ∨ b.hi = JSNum.nan ∨
    jsVal b.gas = JSNum.nan ∨ jsVal b.hr = JSNum.nan

/-- The sanitizer `parseNumber(value) ?? 0`: a non-finite number becomes `0`. -/
def parseNumberOr0 : JSNum → ℝ
  | .num x => x
  | _ => 0

/-- One normalized component:
`Math.min(1.0, Math.sqrt(Math.max(0, delta) / divisor))`. -/
def normalizedTerm (delta : JSNum) (divisor : ℝ) : JSNum :=
  JSNum.jsMin (JSNum.num 1)
    (JSNum.jsSqrt (JSNum.div (JSNum.jsMax (JSNum.num 0) delta) (JSNum.num divisor)))

/-- The trend adjustment added to the base score (two independent `+=`). -/
def trendAdjustmentOf (pHI pGas : ℝ) : ℝ :=
  (if 0.5 ≤ |pHI| then min 1 (|pHI| / 2) * 0.3 else 0) +
    (if 50 ≤ pGas then min 1 (pGas / 100) * 0.2 else 0)

/-- Status messages produced by `saveEnvironmentData` (the trend strings are
tracked as tags; their Korean text is not needed by any property). -/
inductive TrendCause where
  | hiRising : TrendCause
  | hiFalling : TrendCause
  | gasWorsening : TrendCause
deriving DecidableEq

/-- The trend messages pushed while computing the adjustment, in push order. -/
def trendMessagesOf (pHI pGas : ℝ) : List TrendCause :=
  (if 0.5 ≤ |pHI| then [if 0 < pHI then TrendCause.hiRising else TrendCause.hiFalling] else []) ++
    (if 50 ≤ pGas then [TrendCause.gasWorsening] else [])

inductive StatusMessage where
  | readyToMeasure : StatusMessage
  | baselineSettling : StatusMessage
  | overexertionWarning : StatusMessage
  | goodIntensity : StatusMessage
  | lightExercise : StatusMessage
  | trendStatus (msgs : List TrendCause) : StatusMessage
deriving DecidableEq

/-- The buffer push `this.intensityHistory[userId].push(intensity)` followed by the size
guard: drop the oldest entry once the buffer would exceed 5. -/
def pushIntensity (hist : List JSNum) (v : JSNum) : List JSNum :=
  let h1 := hist ++ [v]
  if 5 < h1.length then h1.tail else h1

/-- The recency-weighted sum of the buffer (`weightedSum` of the forEach):
the accumulator pairs the running JS sum with the running index. -/
def weightedSumJS (l : List JSNum) : JSNum :=
  (l.foldl (fun (p : JSNum × ℕ) v =>
    (JSNum.add p.1 (JSNum.mul v (JSNum.num ((p.2 : ℝ) + 1))), p.2 + 1))
    (JSNum.num 0, 0)).1

/-- The matching weight total (`weightSum`), a plain real. -/
def weightTotal (l : List JSNum) : ℝ :=
  (l.foldl (fun (p : ℝ × ℕ) _ => (p.1 + ((p.2 : ℝ) + 1), p.2 + 1)) (0, 0)).1

/-- The smoothing step: with at least two buffered values, replace the
intensity by the recency-weighted average of the buffer. -/
def smoothIntensity (hist : List JSNum) (v : JSNum) : JSNum :=
  if 1 < hist.length then JSNum.div (weightedSumJS hist) (JSNum.num (weightTotal hist)) else v

/-- Rounding via `Math.round` then the two clamping `if`s. -/
def finalizeIntensity (i : JSNum) : JSNum :=
  let r := JSNum.jsRound i
  let r1 := if JSNum.jsLt r (JSNum.num 1) then JSNum.num 1 else r
  if JSNum.jsGt r1 (JSNum.num 10) then JSNum.num 10 else r1

/-- The scoring pipeline from the three deltas onward: normalization,
weighting, trend boost, cap, power-curve discretization, history push,
smoothing, rounding and clamping.  Returns the updated buffer and the final
intensity. -/
def intensityFromDeltas (sensitivity : ℝ) (deltaHI deltaGas deltaHR : JSNum)
    (pHI pGas : ℝ) (hist0 : List JSNum) : List JSNum × JSNum :=
  let hiDivisor : ℝ := max 0.1 (3.0 * sensitivity)
  let gasDivisor : ℝ := max 1.0 (100.0 * sensitivity)
  let normalizedHI := normalizedTerm deltaHI hiDivisor
  let normalizedGas := normalizedTerm deltaGas gasDivisor
  let normalizedHR := normalizedTerm deltaHR 60
  let baseIntensity :=
    JSNum.add
      (JSNum.add (JSNum.mul normalizedHR (JSNum.num 0.5))
        (JSNum.mul normalizedHI (JSNum.num 0.25)))
      (JSNum.mul normalizedGas (JSNum.num 0.25))
  let rawIntensity :=
    JSNum.jsMin (JSNum.num 1)
      (JSNum.add baseIntensity (JSNum.num (trendAdjustmentOf pHI pGas)))
  let intensity0 :=
    JSNum.add (JSNum.num 1) (JSNum.mul (JSNum.pow08 rawIntensity) (JSNum.num 9))
  let hist1 := pushIntensity hist0 intensity0
  (hist1, finalizeIntensity (smoothIntensity hist1 intensity0))

/-- The sample record `saveEnvironmentData` receives, after the `Number()`
coercions of its numeric fields (`heartRate` is used uncoerced, but the
claims quantify over numbers; an absent field arrives as NaN). -/
structure SampleInput where
  userId : String
  temperature : JSNum
  humidity : JSNum
  gasValue : JSNum
  heartRate : JSNum
  predictedHI : JSNum
  predictedGas : JSNum

inductive AlertLevel where
  | none : AlertLevel
  | warning : AlertLevel
  | critical : AlertLevel
deriving DecidableEq

inductive AlertCause where
  | hiRapidRise : AlertCause
  | hiRise : AlertCause
  | gasDegraded : AlertCause
  | gasCaution : AlertCause
  | overexertion : AlertCause
  | highIntensity : AlertCause
deriving DecidableEq

/-- The alert block: three independent threshold groups, each pushing its
cause and escalating the level (`critical` is never overwritten). -/
def classifyAlerts (deltaHI deltaGas calculatedIntensity : JSNum) :
    AlertLevel × List AlertCause :=
  let p0 : AlertLevel × List AlertCause := (AlertLevel.none, [])
  let p1 :=
    if JSNum.jsGe deltaHI (JSNum.num 3.0) then (AlertLevel.critical, p0.2 ++ [AlertCause.hiRapidRise])
    else if JSNum.jsGe deltaHI (JSNum.num 2.0) then
      ((if p0.1 = AlertLevel.none then AlertLevel.warning else p0.1), p0.2 ++ [AlertCause.hiRise])
    else p0
  let p2 :=
    if JSNum.jsGe deltaGas (JSNum.num 100) then
      ((if p1.1 ≠ AlertLevel.critical then AlertLevel.critical else p1.1), p1.2 ++ [AlertCause.gasDegraded])
    else if JSNum.jsGe deltaGas (JSNum.num 50) then
      ((if p1.1 = AlertLevel.none then AlertLevel.warning else p1.1), p1.2 ++ [AlertCause.gasCaution])
    else p1
  let p3 :=
    if JSNum.jsGe calculatedIntensity (JSNum.num 8) then
      ((if p2.1 ≠ AlertLevel.critical then AlertLevel.critical else p2.1), p2.2 ++ [AlertCause.overexertion])
    else if JSNum.jsGe calculatedIntensity (JSNum.num 7) then
      ((if p2.1 = AlertLevel.none then AlertLevel.warning else p2.1), p2.2 ++ [AlertCause.highIntensity])
    else p2
  p3

/-- What `saveEnvironmentData` returns (plus the alert fields it puts into
the stored payload; `alertMessage` is `none` exactly when no cause fired). -/
structure SaveResult where
  intensity : JSNum
  message : StatusMessage
  alertLevel : AlertLevel
  alertMessage : Option (List AlertCause)

/-- The service's `saveEnvironmentData(data)`.  A falsy `userId` (absent or empty) is the
only rejection.  With no active session the sample passes through with
intensity `0`; with an invalid baseline the intensity is the fixed `1`;
otherwise the full pipeline runs and mutates the history buffer.  The alert
block then runs whenever a session exists — `session.baseline` is an object
and hence always truthy — recomputing the (signed) deltas. -/
def saveEnvironmentData (st : ServerState) (d : SampleInput) :
    ServerState × Except String SaveResult :=
  if d.userId = "" then (st, Except.error "userId required")
  else
    let pHI := parseNumberOr0 d.predictedHI
    let pGas := parseNumberOr0 d.predictedGas
    let session := st.sessionStore d.userId
    let fTemp := d.temperature
    let fHum := d.humidity
    let fGas := d.gasValue
    let core : ServerState × JSNum × StatusMessage :=
      match session with
      | none => (st, JSNum.num 0, StatusMessage.readyToMeasure)
      | some s =>
        if baselineInvalid s.baseline then
          (st, JSNum.num 1, StatusMessage.baselineSettling)
        else
          let fHI := computeHeatIndex (some fTemp) (some fHum)
          let sensitivity := getBMISensitivityFactor s.bmi
          let deltaHI := JSNum.jsAbs (JSNum.sub fHI s.baseline.hi)
          let deltaGas := JSNum.jsMax (JSNum.num 0) (JSNum.sub fGas (jsVal s.baseline.gas))
          let deltaHR :=
            JSNum.jsMax (JSNum.num 0)
              (JSNum.sub (jsOrElse d.heartRate 0) (jsVal s.baseline.hr))
          let hist0 := (st.intensityHistory d.userId).getD []
          let out := intensityFromDeltas sensitivity deltaHI deltaGas deltaHR pHI pGas hist0
          let trendMsgs := trendMessagesOf pHI pGas
          let status :=
            if trendMsgs ≠ [] then StatusMessage.trendStatus trendMsgs
            else if JSNum.jsGe out.2 (JSNum.num 8) then StatusMessage.overexertionWarning
            else if JSNum.jsGe out.2 (JSNum.num 4) then StatusMessage.goodIntensity
            else StatusMessage.lightExercise
          ({ st with intensityHistory := Function.update st.intensityHistory d.userId (some out.1) },
            out.2, status)
    let calculatedIntensity := core.2.1
    let alertPair : AlertLevel × List AlertCause :=
      match session with
      | none => (AlertLevel.none, [])
      | some s =>
        let fHI := computeHeatIndex (some fTemp) (some fHum)
        let deltaHI := JSNum.sub fHI s.baseline.hi
        let deltaGas := JSNum.sub fGas (jsVal s.baseline.gas)
        classifyAlerts deltaHI deltaGas calculatedIntensity
    (core.1, Except.ok
      { intensity := calculatedIntensity
        message := core.2.2
        alertLevel := alertPair.1
        alertMessage := if alertPair.2 ≠ [] then some alertPair.2 else none })

/-- The service's `resetSession(userId)`: delete the session, then the history, each only
if present; always succeeds. -/
def resetSession (st : ServerState) (userId : String) : ServerState × Bool :=
  let st1 :=
    match st.sessionStore userId with
    | some _ => { st with sessionStore := Function.update st.sessionStore userId none }
    | none => st
  let st2 :=
    match st1.intensityHistory userId with
    | some _ => { st1 with intensityHistory := Function.update st1.intensityHistory userId none }
    | none => st1
  (st2, true)

/-- The service's `saveSession(body)`: reject a falsy `userId` or missing `sessionData`
without touching the stores; otherwise delete only the in-memory session
(the Firestore write is external) and succeed. -/
def saveSession (st : ServerState) (userId : String) (hasSessionData : Bool) :
    ServerState × Bool :=
  if userId = "" ∨ hasSessionData = false then (st, false)
  else
    let st1 :=
      match st.sessionStore userId with
      | some _ => { st with sessionStore := Function.update st.sessionStore userId none }
      | none => st
    (st1, true)


/-!
## Concrete states used to exercise the theorems
-/

/-- A server with no sessions and no history. -/
def emptyState : ServerState where
  sessionStore := fun _ => none
  intensityHistory := fun _ => none

/-- A fully valid finite baseline captured at 25 degrees / 50 percent /
gas 400 / heart rate 70; its heat index is the one startSession computes. -/
def validBaseline : BaselineObj where
  temp := some (JSNum.num 25)
  hum := some (JSNum.num 50)
  gas := some (JSNum.num 400)
  hr := some (JSNum.num 70)
  hi := computeHeatIndex (some (JSNum.num 25)) (some (JSNum.num 50))

def validSession : SessionState where
  startTime := 0
  baseline := validBaseline
  bmi := JSNum.num 22
  plannedIntensity := JSNum.num 5

/-- One user ("alice") mid-session with the valid baseline and no history. -/
def stValid : ServerState where
  sessionStore := fun u => if u = "alice" then some validSession else none
  intensityHistory := fun _ => none

/-- Same shape but the baseline was captured at temperature 0. -/
def zeroBaseline : BaselineObj where
  temp := some (JSNum.num 0)
  hum := some (JSNum.num 50)
  gas := some (JSNum.num 400)
  hr := some (JSNum.num 70)
  hi := computeHeatIndex (some (JSNum.num 0)) (some (JSNum.num 50))

def zeroSession : SessionState where
  startTime := 0
  baseline := zeroBaseline
  bmi := JSNum.num 22
  plannedIntensity := JSNum.num 5

def stZero : ServerState where
  sessionStore := fun u => if u = "alice" then some zeroSession else none
  intensityHistory := fun _ => none

/-- A baseline that fails the validity check only because its heart-rate
entry is NaN; its heat-index and gas entries are perfectly usable. -/
def invalidHrBaseline : BaselineObj where
  temp := some (JSNum.num 25)
  hum := some (JSNum.num 50)
  gas := some (JSNum.num 400)
  hr := some JSNum.nan
  hi := JSNum.num 25

def invalidHrSession : SessionState where
  startTime := 0
  baseline := invalidHrBaseline
  bmi := JSNum.num 22
  plannedIntensity := JSNum.num 5

def stInvalidHr : ServerState where
  sessionStore := fun u => if u = "alice" then some invalidHrSession else none
  intensityHistory := fun _ => none

/-- A baseline invalid in every scored field: hi, gas and hr are all NaN. -/
def allNanBaseline : BaselineObj where
  temp := some (JSNum.num 25)
  hum := some (JSNum.num 50)
  gas := some JSNum.nan
  hr := some JSNum.nan
  hi := JSNum.nan

def allNanSession : SessionState where
  startTime := 0
  baseline := allNanBaseline
  bmi := JSNum.num 22
  plannedIntensity := JSNum.num 5

def stAllNan : ServerState where
  sessionStore := fun u => if u = "alice" then some allNanSession else none
  intensityHistory := fun _ => none

-- Simp lemmas: constructor-level behaviour of the JS operations.

@[simp] theorem JSNum.add_num_num (a b : ℝ) :
    JSNum.add (.num a) (.num b) = .num (a + b) := rfl

@[simp] theorem JSNum.add_nan_left (b : JSNum) : JSNum.add .nan b = .nan := by
  cases b <;> rfl

@[simp] theorem JSNum.add_nan_right (a : JSNum) : JSNum.add a .nan = .nan := by
  cases a <;> rfl

@[simp] theorem JSNum.add_num_nan (a : ℝ) : JSNum.add (.num a) .nan = .nan := rfl

@[simp] theorem JSNum.sub_num_num (a b : ℝ) :
    JSNum.sub (.num a) (.num b) = .num (a - b) := rfl

@[simp] theorem JSNum.sub_nan_left (b : JSNum) : JSNum.sub .nan b = .nan := by
  cases b <;> rfl

@[simp] theorem JSNum.sub_nan_right (a : JSNum) : JSNum.sub a .nan = .nan := by
  cases a <;> rfl

@[simp] theorem JSNum.sub_num_inf (a : ℝ) : JSNum.sub (.num a) .inf = .ninf := rfl

@[simp] theorem JSNum.sub_num_ninf (a : ℝ) : JSNum.sub (.num a) .ninf = .inf := rfl

@[simp] theorem JSNum.sub_inf_num (a : ℝ) : JSNum.sub .inf (.num a) = .inf := rfl

@[simp] theorem JSNum.sub_ninf_num (a : ℝ) : JSNum.sub .ninf (.num a) = .ninf := rfl

@[simp] theorem JSNum.mul_num_num (a b : ℝ) :
    JSNum.mul (.num a) (.num b) = .num (a * b) := rfl

@[simp] theorem JSNum.mul_nan_left (b : JSNum) : JSNum.mul .nan b = .nan := by
  cases b <;> rfl

@[simp] theorem JSNum.mul_nan_right (a : JSNum) : JSNum.mul a .nan = .nan := by
  cases a <;> rfl

@[simp] theorem JSNum.div_nan_left (b : JSNum) : JSNum.div .nan b = .nan := by
  cases b <;> rfl

@[simp] theorem JSNum.div_nan_right (a : JSNum) : JSNum.div a .nan = .nan := by
  cases a <;> rfl

theorem JSNum.div_num_num {b : ℝ} (a : ℝ) (hb : b ≠ 0) :
    JSNum.div (.num a) (.num b) = .num (a / b) := by
  simp [JSNum.div, hb]

@[simp] theorem JSNum.div_inf_num {b : ℝ} (hb : ¬ b < 0) :
    JSNum.div .inf (.num b) = .inf := by
  simp [JSNum.div, hb]

@[simp] theorem JSNum.jsAbs_num (a : ℝ) : JSNum.jsAbs (.num a) = .num |a| := rfl

@[simp] theorem JSNum.jsAbs_nan : JSNum.jsAbs .nan = .nan := rfl

@[simp] theorem JSNum.jsAbs_inf : JSNum.jsAbs .inf = .inf := rfl

@[simp] theorem JSNum.jsAbs_ninf : JSNum.jsAbs .ninf = .inf := rfl

@[simp] theorem JSNum.jsMax_num_num (a b : ℝ) :
    JSNum.jsMax (.num a) (.num b) = .num (max a b) := rfl

@[simp] theorem JSNum.jsMax_nan_left (b : JSNum) : JSNum.jsMax .nan b = .nan := by
  cases b <;> rfl

@[simp] theorem JSNum.jsMax_nan_right (a : JSNum) : JSNum.jsMax a .nan = .nan := by
  cases a <;> rfl

@[simp] theorem JSNum.jsMax_num_inf (a : ℝ) : JSNum.jsMax (.num a) .inf = .inf := rfl

@[simp] theorem JSNum.jsMax_num_ninf (a : ℝ) : JSNum.jsMax (.num a) .ninf = .num a := rfl

@[simp] theorem JSNum.jsMin_num_num (a b : ℝ) :
    JSNum.jsMin (.num a) (.num b) = .num (min a b) := rfl

@[simp] theorem JSNum.jsMin_nan_left (b : JSNum) : JSNum.jsMin .nan b = .nan := by
  cases b <;> rfl

@[simp] theorem JSNum.jsMin_nan_right (a : JSNum) : JSNum.jsMin a .nan = .nan := by
  cases a <;> rfl

@[simp] theorem JSNum.jsMin_num_inf (a : ℝ) : JSNum.jsMin (.num a) .inf = .num a := rfl

@[simp] theorem JSNum.jsSqrt_nan : JSNum.jsSqrt .nan = .nan := rfl

@[simp] theorem JSNum.jsSqrt_inf : JSNum.jsSqrt .inf = .inf := rfl

theorem JSNum.jsSqrt_num {x : ℝ} (hx : ¬ x < 0) :
    JSNum.jsSqrt (.num x) = .num (Real.sqrt x) := by
  simp [JSNum.jsSqrt, hx]

@[simp] theorem JSNum.jsSqrt_num_nonneg {x : ℝ} (hx : 0 ≤ x) :
    JSNum.jsSqrt (.num x) = .num (Real.sqrt x) :=
  JSNum.jsSqrt_num (not_lt.mpr hx)

@[simp] theorem JSNum.pow08_nan : JSNum.pow08 .nan = .nan := rfl

theorem JSNum.pow08_num {x : ℝ} (hx : ¬ x < 0) :
    JSNum.pow08 (.num x) = .num (x ^ (0.8 : ℝ)) := by
  simp [JSNum.pow08, hx]

@[simp] theorem JSNum.pow08_num_nonneg {x : ℝ} (hx : 0 ≤ x) :
    JSNum.pow08 (.num x) = .num (x ^ (0.8 : ℝ)) :=
  JSNum.pow08_num (not_lt.mpr hx)

@[simp] theorem JSNum.jsRound_num (x : ℝ) :
    JSNum.jsRound (.num x) = .num ((⌊x + 1 / 2⌋ : ℤ) : ℝ) := rfl

@[simp] theorem JSNum.jsRound_nan : JSNum.jsRound .nan = .nan := rfl

@[simp] theorem JSNum.jsGe_num_num (a b : ℝ) :
    JSNum.jsGe (.num a) (.num b) ↔ b ≤ a := Iff.rfl

@[simp] theorem JSNum.jsGe_nan_left (b : JSNum) : ¬ JSNum.jsGe .nan b := by
  cases b <;> simp [JSNum.jsGe]

@[simp] theorem JSNum.jsGt_num_num (a b : ℝ) :
    JSNum.jsGt (.num a) (.num b) ↔ b < a := Iff.rfl

@[simp] theorem JSNum.isFalsy_nan : JSNum.isFalsy .nan := trivial

@[simp] theorem JSNum.isFalsy_num (x : ℝ) : JSNum.isFalsy (.num x) ↔ x = 0 := Iff.rfl

@[simp] theorem JSNum.isNum_num (x : ℝ) : JSNum.isNum (.num x) := trivial

@[simp] theorem JSNum.isNum_nan : ¬ JSNum.isNum .nan := fun h => h

@[simp] theorem JSNum.valOr0_num (x : ℝ) : JSNum.valOr0 (.num x) = x := rfl

@[simp] theorem JSNum.num_injEq (a b : ℝ) : JSNum.num a = JSNum.num b ↔ a = b := by
  constructor
  · intro h; cases h; rfl
  · intro h; rw [h]

@[simp] theorem JSNum.nan_ne_num (a : ℝ) : JSNum.nan ≠ JSNum.num a := fun h => by
  cases h

@[simp] theorem JSNum.num_ne_nan (a : ℝ) : JSNum.num a ≠ JSNum.nan := fun h => by
  cases h

@[simp] theorem jsVal_some (v : JSNum) : jsVal (some v) = v := rfl

@[simp] theorem jsVal_none : jsVal none = JSNum.nan := rfl

@[simp] theorem jsOrElse_nan (d : ℝ) : jsOrElse .nan d = .num d := by
  simp [jsOrElse, JSNum.isFalsy]

theorem jsOrElse_num {x : ℝ} (d : ℝ) (hx : x ≠ 0) :
    jsOrElse (.num x) d = .num x := by
  simp [jsOrElse, JSNum.isFalsy, hx]


-- Heat-index helper lemmas.

theorem computeHeatIndex_none_left (rh : Option JSNum) :
    computeHeatIndex none rh = .num 0 := rfl

theorem computeHeatIndex_some_none (tv : JSNum) :
    computeHeatIndex (some tv) none = tv := rfl

/-- Evaluating the heat index on finite inputs: it is the spec's Rothfusz
formula at the clamped humidity. -/
theorem computeHeatIndex_num_num (a r : ℝ) :
    computeHeatIndex (some (.num a)) (some (.num r)) =
      .num (specHeatIndex a (min 100 (max 0 r))) := by
  norm_num [computeHeatIndex, JSNum.div_num_num, specHeatIndex, rothfuszF]

theorem computeHeatIndex_num_inf (a : ℝ) :
    computeHeatIndex (some (.num a)) (some .inf) =
      .num (specHeatIndex a 100) := by
  have h := computeHeatIndex_num_num a 100
  norm_num at h
  rw [← h]
  norm_num [computeHeatIndex]

theorem computeHeatIndex_num_ninf (a : ℝ) :
    computeHeatIndex (some (.num a)) (some .ninf) =
      .num (specHeatIndex a 0) := by
  have h := computeHeatIndex_num_num a 0
  norm_num at h
  rw [← h]
  norm_num [computeHeatIndex]

/-- A finite temperature and a non-NaN humidity always give a finite heat
index. -/
theorem computeHeatIndex_isNum (a : ℝ) {rh : JSNum} (h : rh ≠ .nan) :
    ∃ x, computeHeatIndex (some (.num a)) (some rh) = .num x := by
  cases rh with
  | nan => exact absurd rfl h
  | inf => exact ⟨_, computeHeatIndex_num_inf a⟩
  | ninf => exact ⟨_, computeHeatIndex_num_ninf a⟩
  | num r => exact ⟨_, computeHeatIndex_num_num a r⟩

/-- A NaN temperature poisons the whole regression. -/
theorem computeHeatIndex_nan_temp (rh : JSNum) :
    computeHeatIndex (some .nan) (some rh) = .nan := by
  cases rh <;> simp [computeHeatIndex]


-- Pipeline helper lemmas.

@[simp] theorem JSNum.jsLt_num_num (a b : ℝ) :
    JSNum.jsLt (.num a) (.num b) ↔ a < b := Iff.rfl

theorem JSNum.isNum_iff (v : JSNum) : v.isNum ↔ ∃ x, v = .num x := by
  cases v <;> simp [JSNum.isNum]

theorem normalizedTerm_num {d c : ℝ} (hc : 0 < c) :
    normalizedTerm (.num d) c = .num (min 1 (Real.sqrt (max 0 d / c))) := by
  rw [normalizedTerm, JSNum.jsMax_num_num, JSNum.div_num_num _ (ne_of_gt hc),
    JSNum.jsSqrt_num_nonneg (div_nonneg (le_max_left 0 d) hc.le), JSNum.jsMin_num_num]

theorem normalizedTerm_inf {c : ℝ} (hc : 0 < c) :
    normalizedTerm .inf c = .num 1 := by
  rw [normalizedTerm, JSNum.jsMax_num_inf, JSNum.div_inf_num (not_lt.mpr hc.le),
    JSNum.jsSqrt_inf, JSNum.jsMin_num_inf]

theorem normalizedTerm_ninf {c : ℝ} (hc : 0 < c) :
    normalizedTerm .ninf c = .num 0 := by
  rw [normalizedTerm, JSNum.jsMax_num_ninf, JSNum.div_num_num _ (ne_of_gt hc),
    JSNum.jsSqrt_num_nonneg (by positivity), JSNum.jsMin_num_num]
  norm_num

theorem normalizedTerm_nan (c : ℝ) : normalizedTerm .nan c = .nan := by
  simp [normalizedTerm]

theorem normalizedTerm_bounded {delta : JSNum} {c : ℝ} (hd : delta ≠ .nan) (hc : 0 < c) :
    ∃ u, normalizedTerm delta c = .num u ∧ 0 ≤ u ∧ u ≤ 1 := by
  cases delta with
  | nan => exact absurd rfl hd
  | inf => exact ⟨1, normalizedTerm_inf hc, by norm_num, le_refl 1⟩
  | ninf => exact ⟨0, normalizedTerm_ninf hc, le_refl 0, by norm_num⟩
  | num d =>
      exact ⟨_, normalizedTerm_num hc,
        le_min zero_le_one (Real.sqrt_nonneg _), min_le_left _ _⟩

theorem trendAdjustmentOf_nonneg (p g : ℝ) : 0 ≤ trendAdjustmentOf p g := by
  unfold trendAdjustmentOf
  apply add_nonneg
  · split_ifs with h
    · exact mul_nonneg (le_min zero_le_one (by positivity)) (by norm_num)
    · exact le_refl 0
  · split_ifs with h
    · exact mul_nonneg (le_min zero_le_one (div_nonneg (by linarith) (by norm_num)))
        (by norm_num)
    · exact le_refl 0

theorem pushIntensity_eq_append (hist : List JSNum) (v : JSNum) :
    pushIntensity hist v = (if 5 < hist.length + 1 then hist.tail else hist) ++ [v] := by
  unfold pushIntensity
  simp only [List.length_append, List.length_singleton]
  split_ifs with h
  · cases hist with
    | nil => simp at h
    | cons a t => simp
  · rfl

theorem pushIntensity_length_le {hist : List JSNum} (h : hist.length ≤ 5) (v : JSNum) :
    (pushIntensity hist v).length ≤ 5 := by
  rw [pushIntensity_eq_append]
  simp only [List.length_append, List.length_singleton]
  split_ifs with h5
  · simp only [List.length_tail]
    omega
  · omega

theorem pushIntensity_allNum {hist : List JSNum} (h : ∀ w ∈ hist, w.isNum) (e : ℝ) :
    ∀ w ∈ pushIntensity hist (.num e), w.isNum := by
  intro w hw
  rw [pushIntensity_eq_append] at hw
  rcases List.mem_append.mp hw with h1 | h2
  · split_ifs at h1
    · exact h _ (List.mem_of_mem_tail h1)
    · exact h _ h1
  · rw [List.mem_singleton.mp h2]
    exact trivial

theorem weightedSumAux_snd (l : List JSNum) (p : JSNum × ℕ) :
    (l.foldl (fun (q : JSNum × ℕ) v =>
      (JSNum.add q.1 (JSNum.mul v (JSNum.num ((q.2 : ℝ) + 1))), q.2 + 1)) p).2 =
      p.2 + l.length := by
  induction l generalizing p with
  | nil => simp
  | cons a t ih =>
      rw [List.foldl_cons, ih]
      simp only [List.length_cons]
      omega

theorem weightedSumJS_append (l : List JSNum) (v : JSNum) :
    weightedSumJS (l ++ [v]) =
      JSNum.add (weightedSumJS l) (JSNum.mul v (JSNum.num ((l.length : ℝ) + 1))) := by
  unfold weightedSumJS
  rw [List.foldl_append]
  simp [weightedSumAux_snd]

theorem weightedSumAux_isNum {l : List JSNum} (h : ∀ v ∈ l, v.isNum) :
    ∀ (p : JSNum × ℕ), (∃ w, p.1 = .num w) →
      ∃ w, (l.foldl (fun (q : JSNum × ℕ) v =>
        (JSNum.add q.1 (JSNum.mul v (JSNum.num ((q.2 : ℝ) + 1))), q.2 + 1)) p).1 = .num w := by
  induction l with
  | nil => intro p hp; simpa using hp
  | cons a t ih =>
      intro p hp
      obtain ⟨w, hw⟩ := hp
      obtain ⟨x, hx⟩ := (JSNum.isNum_iff a).mp (h a (List.mem_cons_self a t))
      rw [List.foldl_cons]
      refine ih (fun v hv => h v (List.mem_cons_of_mem _ hv)) _ ?_
      exact ⟨w + x * ((p.2 : ℝ) + 1), by rw [hw, hx]; simp⟩

theorem weightedSumJS_isNum {l : List JSNum} (h : ∀ v ∈ l, v.isNum) :
    ∃ w, weightedSumJS l = .num w :=
  weightedSumAux_isNum h _ ⟨0, rfl⟩

theorem weightTotalAux_fst_ge (l : List JSNum) (p : ℝ × ℕ) :
    p.1 ≤ (l.foldl (fun (q : ℝ × ℕ) _ => (q.1 + ((q.2 : ℝ) + 1), q.2 + 1)) p).1 := by
  induction l generalizing p with
  | nil => simp
  | cons a t ih =>
      rw [List.foldl_cons]
      refine le_trans ?_ (ih _)
      exact le_add_of_nonneg_right (by positivity)

theorem weightTotal_pos {l : List JSNum} (h : l ≠ []) : 0 < weightTotal l := by
  unfold weightTotal
  cases l with
  | nil => exact absurd rfl h
  | cons a t =>
      rw [List.foldl_cons]
      refine lt_of_lt_of_le ?_ (weightTotalAux_fst_ge t _)
      norm_num

theorem weightTotalAux_congr (l l' : List JSNum) (h : l.length = l'.length) (p : ℝ × ℕ) :
    l.foldl (fun (q : ℝ × ℕ) _ => (q.1 + ((q.2 : ℝ) + 1), q.2 + 1)) p =
      l'.foldl (fun (q : ℝ × ℕ) _ => (q.1 + ((q.2 : ℝ) + 1), q.2 + 1)) p := by
  induction l generalizing l' p with
  | nil =>
      cases l' with
      | nil => rfl
      | cons b s => simp at h
  | cons a t ih =>
      cases l' with
      | nil => simp at h
      | cons b s =>
          rw [List.foldl_cons, List.foldl_cons]
          exact ih s (by simpa using h) _

theorem weightTotal_congr {l l' : List JSNum} (h : l.length = l'.length) :
    weightTotal l = weightTotal l' := by
  unfold weightTotal
  rw [weightTotalAux_congr l l' h]

theorem smooth_eval {pre : List JSNum} {w : ℝ} (hw : weightedSumJS pre = .num w)
    (hpre : pre ≠ []) (e : ℝ) :
    smoothIntensity (pre ++ [.num e]) (.num e) =
      .num ((w + e * ((pre.length : ℝ) + 1)) / weightTotal (pre ++ [.num e])) := by
  unfold smoothIntensity
  rw [if_pos (by simp [List.length_pos.mpr hpre])]
  rw [weightedSumJS_append, hw]
  simp only [JSNum.mul_num_num, JSNum.add_num_num]
  rw [JSNum.div_num_num _ (ne_of_gt (weightTotal_pos (by simp)))]

theorem finalize_num_eval (x : ℝ) :
    finalizeIntensity (.num x) =
      .num (if ((⌊x + 1 / 2⌋ : ℤ) : ℝ) < 1 then 1
        else if (10 : ℝ) < ((⌊x + 1 / 2⌋ : ℤ) : ℝ) then 10
        else ((⌊x + 1 / 2⌋ : ℤ) : ℝ)) := by
  unfold finalizeIntensity
  simp only [JSNum.jsRound_num, JSNum.jsLt_num_num]
  by_cases h1 : ((⌊x + 1 / 2⌋ : ℤ) : ℝ) < 1
  · rw [if_pos h1, if_pos h1,
      if_neg (show ¬ JSNum.jsGt (JSNum.num 1) (JSNum.num 10) by
        simp only [JSNum.jsGt_num_num]; norm_num)]
  · rw [if_neg h1, if_neg h1]
    by_cases h2 : (10 : ℝ) < ((⌊x + 1 / 2⌋ : ℤ) : ℝ)
    · rw [if_pos (show JSNum.jsGt (JSNum.num ((⌊x + 1 / 2⌋ : ℤ) : ℝ)) (JSNum.num 10) by
        simpa only [JSNum.jsGt_num_num] using h2), if_pos h2]
    · rw [if_neg (show ¬ JSNum.jsGt (JSNum.num ((⌊x + 1 / 2⌋ : ℤ) : ℝ)) (JSNum.num 10) by
        simpa only [JSNum.jsGt_num_num] using h2), if_neg h2]

theorem finalize_num_int (x : ℝ) :
    ∃ k : ℤ, finalizeIntensity (.num x) = .num k ∧ 1 ≤ k ∧ k ≤ 10 := by
  rw [finalize_num_eval]
  by_cases h1 : ((⌊x + 1 / 2⌋ : ℤ) : ℝ) < 1
  · rw [if_pos h1]
    exact ⟨1, by norm_num, le_refl 1, by norm_num⟩
  · rw [if_neg h1]
    by_cases h2 : (10 : ℝ) < ((⌊x + 1 / 2⌋ : ℤ) : ℝ)
    · rw [if_pos h2]
      exact ⟨10, by norm_num, by norm_num, le_refl 10⟩
    · rw [if_neg h2]
      refine ⟨⌊x + 1 / 2⌋, rfl, ?_, ?_⟩
      · exact_mod_cast not_lt.mp h1
      · exact_mod_cast not_lt.mp h2

theorem finalize_mono {x y : ℝ} (h : x ≤ y) :
    JSNum.valOr0 (finalizeIntensity (.num x)) ≤
      JSNum.valOr0 (finalizeIntensity (.num y)) := by
  have hm : ((⌊x + 1 / 2⌋ : ℤ) : ℝ) ≤ ((⌊y + 1 / 2⌋ : ℤ) : ℝ) := by
    exact_mod_cast Int.floor_le_floor (by linarith)
  rw [finalize_num_eval, finalize_num_eval]
  simp only [JSNum.valOr0]
  split_ifs <;> linarith

theorem smoothFinalize_isInt {pre : List JSNum} (hall : ∀ v ∈ pre, v.isNum) (e : ℝ) :
    ∃ k : ℤ, finalizeIntensity (smoothIntensity (pre ++ [.num e]) (.num e)) = .num k ∧
      1 ≤ k ∧ k ≤ 10 := by
  rcases eq_or_ne pre [] with rfl | hne
  · simp only [List.nil_append]
    rw [smoothIntensity, if_neg (by simp)]
    exact finalize_num_int e
  · obtain ⟨w, hw⟩ := weightedSumJS_isNum hall
    rw [smooth_eval hw hne e]
    exact finalize_num_int _

theorem smoothFinalize_mono {pre : List JSNum} (hall : ∀ v ∈ pre, v.isNum)
    {e e' : ℝ} (h : e ≤ e') :
    JSNum.valOr0 (finalizeIntensity (smoothIntensity (pre ++ [.num e]) (.num e))) ≤
      JSNum.valOr0 (finalizeIntensity (smoothIntensity (pre ++ [.num e']) (.num e'))) := by
  rcases eq_or_ne pre [] with rfl | hne
  · simp only [List.nil_append]
    rw [smoothIntensity, if_neg (by simp), smoothIntensity, if_neg (by simp)]
    exact finalize_mono h
  · obtain ⟨w, hw⟩ := weightedSumJS_isNum hall
    rw [smooth_eval hw hne e, smooth_eval hw hne e']
    rw [weightTotal_congr
      (show (pre ++ [JSNum.num e]).length = (pre ++ [JSNum.num e']).length by simp)]
    apply finalize_mono
    have hTpos : 0 < weightTotal (pre ++ [JSNum.num e']) := weightTotal_pos (by simp)
    have hco : (0 : ℝ) ≤ (pre.length : ℝ) + 1 := by positivity
    have hmul : e * ((pre.length : ℝ) + 1) ≤ e' * ((pre.length : ℝ) + 1) :=
      mul_le_mul_of_nonneg_right h hco
    exact (div_le_div_iff_of_pos_right hTpos).mpr (by linarith)


-- Lemmas about the delta-to-intensity pipeline.

theorem ifd_fst (s : ℝ) (dHI dGas dHR : JSNum) (pHI pGas : ℝ) (hist0 : List JSNum) :
    ∃ v, (intensityFromDeltas s dHI dGas dHR pHI pGas hist0).1 = pushIntensity hist0 v :=
  ⟨_, rfl⟩

theorem ifd_result (s : ℝ) {dHI dGas dHR : JSNum} (h1 : dHI ≠ .nan) (h2 : dGas ≠ .nan)
    (h3 : dHR ≠ .nan) (pHI pGas : ℝ) {hist0 : List JSNum} (hall : ∀ v ∈ hist0, v.isNum) :
    ∃ k : ℤ, (intensityFromDeltas s dHI dGas dHR pHI pGas hist0).2 = .num k ∧
      1 ≤ k ∧ k ≤ 10 := by
  have hcHI : (0 : ℝ) < max 0.1 (3.0 * s) := lt_of_lt_of_le (by norm_num) (le_max_left _ _)
  have hcGas : (0 : ℝ) < max 1.0 (100.0 * s) := lt_of_lt_of_le (by norm_num) (le_max_left _ _)
  obtain ⟨u1, hu1, hu1l, hu1r⟩ := normalizedTerm_bounded h1 hcHI
  obtain ⟨u2, hu2, hu2l, hu2r⟩ := normalizedTerm_bounded h2 hcGas
  obtain ⟨u3, hu3, hu3l, hu3r⟩ := normalizedTerm_bounded h3 (by norm_num : (0 : ℝ) < 60)
  have ht := trendAdjustmentOf_nonneg pHI pGas
  have hbase : (0 : ℝ) ≤ u3 * 0.5 + u1 * 0.25 + u2 * 0.25 + trendAdjustmentOf pHI pGas := by
    nlinarith
  have hraw : (0 : ℝ) ≤
      min 1 (u3 * 0.5 + u1 * 0.25 + u2 * 0.25 + trendAdjustmentOf pHI pGas) :=
    le_min zero_le_one hbase
  simp only [intensityFromDeltas, hu1, hu2, hu3, JSNum.mul_num_num, JSNum.add_num_num,
    JSNum.jsMin_num_num, JSNum.pow08_num_nonneg hraw]
  rw [pushIntensity_eq_append]
  refine smoothFinalize_isInt ?_ _
  split_ifs with h5
  · exact fun v hv => hall v (List.mem_of_mem_tail hv)
  · exact hall

theorem ifd_eval (s a b c pHI pGas : ℝ) (hist0 : List JSNum) :
    ∃ e : ℝ,
      (intensityFromDeltas s (.num a) (.num b) (.num c) pHI pGas hist0).2 =
        finalizeIntensity (smoothIntensity (pushIntensity hist0 (.num e)) (.num e)) ∧
      e = 1 + min 1
          (min 1 (Real.sqrt (max 0 c / 60)) * 0.5 +
            min 1 (Real.sqrt (max 0 a / max 0.1 (3.0 * s))) * 0.25 +
            min 1 (Real.sqrt (max 0 b / max 1.0 (100.0 * s))) * 0.25 +
            trendAdjustmentOf pHI pGas) ^ (0.8 : ℝ) * 9 := by
  have hcHI : (0 : ℝ) < max 0.1 (3.0 * s) := lt_of_lt_of_le (by norm_num) (le_max_left _ _)
  have hcGas : (0 : ℝ) < max 1.0 (100.0 * s) := lt_of_lt_of_le (by norm_num) (le_max_left _ _)
  have n3 : (0 : ℝ) ≤ min 1 (Real.sqrt (max 0 c / 60)) :=
    le_min zero_le_one (Real.sqrt_nonneg _)
  have n1 : (0 : ℝ) ≤ min 1 (Real.sqrt (max 0 a / max 0.1 (3.0 * s))) :=
    le_min zero_le_one (Real.sqrt_nonneg _)
  have n2 : (0 : ℝ) ≤ min 1 (Real.sqrt (max 0 b / max 1.0 (100.0 * s))) :=
    le_min zero_le_one (Real.sqrt_nonneg _)
  have ht := trendAdjustmentOf_nonneg pHI pGas
  have hraw : (0 : ℝ) ≤ min 1
      (min 1 (Real.sqrt (max 0 c / 60)) * 0.5 +
        min 1 (Real.sqrt (max 0 a / max 0.1 (3.0 * s))) * 0.25 +
        min 1 (Real.sqrt (max 0 b / max 1.0 (100.0 * s))) * 0.25 +
        trendAdjustmentOf pHI pGas) :=
    le_min zero_le_one (by nlinarith)
  refine ⟨_, ?_, rfl⟩
  simp only [intensityFromDeltas, normalizedTerm_num hcHI, normalizedTerm_num hcGas,
    normalizedTerm_num (show (0 : ℝ) < 60 by norm_num), JSNum.mul_num_num,
    JSNum.add_num_num, JSNum.jsMin_num_num, JSNum.pow08_num_nonneg hraw]


-- Branch evaluations of saveEnvironmentData.

theorem save_error (st : ServerState) (d : SampleInput) (hu : d.userId = "") :
    saveEnvironmentData st d = (st, Except.error "userId required") := by
  unfold saveEnvironmentData
  rw [if_pos hu]

theorem save_noSession (st : ServerState) (d : SampleInput) (hu : ¬ d.userId = "")
    (hs : st.sessionStore d.userId = none) :
    saveEnvironmentData st d =
      (st, Except.ok
        { intensity := JSNum.num 0
          message := StatusMessage.readyToMeasure
          alertLevel := AlertLevel.none
          alertMessage := none }) := by
  unfold saveEnvironmentData
  rw [if_neg hu]
  simp only [hs]
  simp

theorem save_invalid (st : ServerState) (d : SampleInput) (s : SessionState)
    (hu : ¬ d.userId = "") (hs : st.sessionStore d.userId = some s)
    (hb : baselineInvalid s.baseline) :
    saveEnvironmentData st d =
      (st, Except.ok
        { intensity := JSNum.num 1
          message := StatusMessage.baselineSettling
          alertLevel := (classifyAlerts
            (JSNum.sub (computeHeatIndex (some d.temperature) (some d.humidity)) s.baseline.hi)
            (JSNum.sub d.gasValue (jsVal s.baseline.gas)) (JSNum.num 1)).1
          alertMessage :=
            if (classifyAlerts
                (JSNum.sub (computeHeatIndex (some d.temperature) (some d.humidity)) s.baseline.hi)
                (JSNum.sub d.gasValue (jsVal s.baseline.gas)) (JSNum.num 1)).2 ≠ [] then
              some (classifyAlerts
                (JSNum.sub (computeHeatIndex (some d.temperature) (some d.humidity)) s.baseline.hi)
                (JSNum.sub d.gasValue (jsVal s.baseline.gas)) (JSNum.num 1)).2
            else none }) := by
  unfold saveEnvironmentData
  rw [if_neg hu]
  simp only [hs, if_pos hb]

theorem save_valid (st : ServerState) (d : SampleInput) (s : SessionState)
    (hu : ¬ d.userId = "") (hs : st.sessionStore d.userId = some s)
    (hb : ¬ baselineInvalid s.baseline) :
    saveEnvironmentData st d =
      (let fHI := computeHeatIndex (some d.temperature) (some d.humidity)
       let out := intensityFromDeltas (getBMISensitivityFactor s.bmi)
         (JSNum.jsAbs (JSNum.sub fHI s.baseline.hi))
         (JSNum.jsMax (JSNum.num 0) (JSNum.sub d.gasValue (jsVal s.baseline.gas)))
         (JSNum.jsMax (JSNum.num 0)
           (JSNum.sub (jsOrElse d.heartRate 0) (jsVal s.baseline.hr)))
         (parseNumberOr0 d.predictedHI) (parseNumberOr0 d.predictedGas)
         ((st.intensityHistory d.userId).getD [])
       let trendMsgs :=
         trendMessagesOf (parseNumberOr0 d.predictedHI) (parseNumberOr0 d.predictedGas)
       let alertPair := classifyAlerts (JSNum.sub fHI s.baseline.hi)
         (JSNum.sub d.gasValue (jsVal s.baseline.gas)) out.2
       ({ st with
            intensityHistory := Function.update st.intensityHistory d.userId (some out.1) },
        Except.ok {
          intensity := out.2
          message :=
            if trendMsgs ≠ [] then StatusMessage.trendStatus trendMsgs
            else if JSNum.jsGe out.2 (JSNum.num 8) then StatusMessage.overexertionWarning
            else if JSNum.jsGe out.2 (JSNum.num 4) then StatusMessage.goodIntensity
            else StatusMessage.lightExercise
          alertLevel := alertPair.1
          alertMessage := if alertPair.2 ≠ [] then some alertPair.2 else none })) := by
  unfold saveEnvironmentData
  rw [if_neg hu]
  simp only [hs, if_neg hb]


-- Further constructor-level comparison lemmas.

@[simp] theorem JSNum.jsLt_nan_left (b : JSNum) : ¬ JSNum.jsLt .nan b := by
  cases b <;> simp [JSNum.jsLt]

@[simp] theorem JSNum.jsGt_nan_left (b : JSNum) : ¬ JSNum.jsGt .nan b := by
  cases b <;> simp [JSNum.jsGt]

theorem JSNum.jsGe_const_mono {x : JSNum} {a b : ℝ} (hba : b ≤ a)
    (h : JSNum.jsGe x (.num a)) : JSNum.jsGe x (.num b) := by
  cases x <;> simp_all [JSNum.jsGe]
  linarith

-- Evaluations of resetSession, startSession, saveSession.

theorem resetSession_eval (st : ServerState) (u : String) :
    resetSession st u =
      ({ sessionStore := Function.update st.sessionStore u none
         intensityHistory := Function.update st.intensityHistory u none }, true) := by
  obtain ⟨f, g⟩ := st
  have hf : ∀ (h : Option SessionState) (hfu : f u = h) (hn : h = none),
      f = Function.update f u none := by
    intro h hfu hn
    funext x
    by_cases hx : x = u
    · subst hx; rw [Function.update_same, hfu, hn]
    · rw [Function.update_noteq hx]
  have hg : ∀ (h : Option (List JSNum)) (hgu : g u = h) (hn : h = none),
      g = Function.update g u none := by
    intro h hgu hn
    funext x
    by_cases hx : x = u
    · subst hx; rw [Function.update_same, hgu, hn]
    · rw [Function.update_noteq hx]
  unfold resetSession
  rcases h1 : f u with _ | s <;> rcases h2 : g u with _ | l <;> simp only [h1, h2]
  · rw [← hf _ h1 rfl, ← hg _ h2 rfl]
  · rw [← hf _ h1 rfl]
  · rw [← hg _ h2 rfl]

theorem startSession_eval (st : ServerState) (u : String) (pi : Option JSNum)
    (b : BaselineInput) (profile : ProfileLookup) (now : ℕ) :
    (startSession st u pi b profile now).1.sessionStore u =
      some { startTime := now
             baseline := { temp := b.temp, hum := b.hum, gas := b.gas, hr := b.hr,
                           hi := computeHeatIndex b.temp b.hum }
             bmi :=
               match profile with
               | .failure => JSNum.num 22
               | .missing => JSNum.num 22
               | .found height weight =>
                   let h := JSNum.div (jsOptOrElse height 175) (JSNum.num 100)
                   let w := jsOptOrElse weight 70
                   if JSNum.jsGt h (JSNum.num 0) then JSNum.div w (JSNum.mul h h)
                   else JSNum.num 22
             plannedIntensity := jsOptOrElse pi 1 } := by
  unfold startSession
  exact Function.update_same _ _ _

-- Claim theorems.

/-- C3: in the alert classifier, any critical threshold (signed heat-index
delta ≥ 3, signed gas delta ≥ 100, final intensity ≥ 8) forces the overall
level to `critical` regardless of the other causes, and the level is never
`none` when any threshold (warning or critical) matches; the sequential
escalation never downgrades an already-set critical level. -/
theorem c3_alert_dominance (deltaHI deltaGas intensity : JSNum) :
    (JSNum.jsGe deltaHI (JSNum.num 3.0) ∨ JSNum.jsGe deltaGas (JSNum.num 100) ∨
        JSNum.jsGe intensity (JSNum.num 8) →
      (classifyAlerts deltaHI deltaGas intensity).1 = AlertLevel.critical) ∧
    (JSNum.jsGe deltaHI (JSNum.num 2.0) ∨ JSNum.jsGe deltaGas (JSNum.num 50) ∨
        JSNum.jsGe intensity (JSNum.num 7) →
      (classifyAlerts deltaHI deltaGas intensity).1 ≠ AlertLevel.none) := by
  unfold classifyAlerts
  constructor <;> intro h <;> split_ifs <;> simp_all

/-- C3 witness: a heat-index delta of 5 alone classifies as critical. -/
theorem c3_witness :
    (classifyAlerts (JSNum.num 5) (JSNum.num 0) (JSNum.num 0)).1 = AlertLevel.critical :=
  (c3_alert_dominance (JSNum.num 5) (JSNum.num 0) (JSNum.num 0)).1
    (Or.inl (by simp only [JSNum.jsGe_num_num]; norm_num))

/-- C4: the per-user intensity history never grows beyond 5 entries across a
sample, and six successive pushes starting from an empty buffer retain
exactly the last five values in arrival order (the oldest is evicted). -/
theorem c4_history_bound (st : ServerState) (d : SampleInput) (u : String)
    (h : ((st.intensityHistory u).getD []).length ≤ 5) :
    ((((saveEnvironmentData st d).1.intensityHistory u).getD []).length ≤ 5) ∧
    (∀ v1 v2 v3 v4 v5 v6 : JSNum,
      List.foldl pushIntensity [] [v1, v2, v3, v4, v5, v6] = [v2, v3, v4, v5, v6]) := by
  constructor
  · by_cases hu : d.userId = ""
    · rw [save_error st d hu]; exact h
    · cases hs : st.sessionStore d.userId with
      | none => rw [save_noSession st d hu hs]; exact h
      | some s =>
        by_cases hb : baselineInvalid s.baseline
        · rw [save_invalid st d s hu hs hb]; exact h
        · rw [save_valid st d s hu hs hb]
          by_cases huu : u = d.userId
          · subst huu
            obtain ⟨v, hv⟩ := ifd_fst (getBMISensitivityFactor s.bmi)
              (JSNum.jsAbs (JSNum.sub
                (computeHeatIndex (some d.temperature) (some d.humidity)) s.baseline.hi))
              (JSNum.jsMax (JSNum.num 0) (JSNum.sub d.gasValue (jsVal s.baseline.gas)))
              (JSNum.jsMax (JSNum.num 0)
                (JSNum.sub (jsOrElse d.heartRate 0) (jsVal s.baseline.hr)))
              (parseNumberOr0 d.predictedHI) (parseNumberOr0 d.predictedGas)
              ((st.intensityHistory d.userId).getD [])
            simp only [Function.update_same, Option.getD_some, hv]
            exact pushIntensity_length_le h v
          · simp only [Function.update_noteq huu]
            exact h
  · intro v1 v2 v3 v4 v5 v6
    simp [pushIntensity]

/-- C6: resetting a session always succeeds, removes both the session and
the history for that user, is idempotent, and the next sample for that user
behaves exactly as the no-active-session case. -/
theorem c6_resetSession (st : ServerState) (u : String) (d : SampleInput)
    (hu : u ≠ "") (hd : d.userId = u) :
    (resetSession st u).2 = true ∧
    (resetSession st u).1.sessionStore u = none ∧
    (resetSession st u).1.intensityHistory u = none ∧
    resetSession (resetSession st u).1 u = resetSession st u ∧
    (∃ r, (saveEnvironmentData (resetSession st u).1 d).2 = Except.ok r ∧
      r.intensity = JSNum.num 0 ∧ r.message = StatusMessage.readyToMeasure ∧
      r.alertLevel = AlertLevel.none ∧ r.alertMessage = none) := by
  have h1 := resetSession_eval st u
  refine ⟨by rw [h1], by rw [h1]; exact Function.update_same _ _ _,
    by rw [h1]; exact Function.update_same _ _ _, ?_, ?_⟩
  · rw [h1, resetSession_eval]
    simp [Function.update_idem]
  · rw [h1]
    rw [save_noSession _ d (by rw [hd]; exact hu)
      (by rw [hd]; exact Function.update_same _ _ _)]
    exact ⟨_, rfl, rfl, rfl, rfl, rfl⟩

/-- C7 (amended): startSession always succeeds and overwrites the user's
session; the stored baseline heat index is recomputed from the supplied
temperature/humidity; on a thrown lookup or a missing profile document the
BMI is the fixed initializer 22.0 (not the value computed from the
175 cm / 70 kg defaults); the 175/70 defaults apply only when the document
exists with absent height/weight, giving BMI = 70 / 1.75². -/
theorem c7_amended (st : ServerState) (u : String) (pi : Option JSNum)
    (b : BaselineInput) (profile : ProfileLookup) (now : ℕ) :
    (startSession st u pi b profile now).2 = true ∧
    (∃ s, (startSession st u pi b profile now).1.sessionStore u = some s ∧
      s.baseline.hi = computeHeatIndex b.temp b.hum ∧
      ((profile = ProfileLookup.failure ∨ profile = ProfileLookup.missing) →
        s.bmi = JSNum.num 22) ∧
      (profile = ProfileLookup.found none none →
        s.bmi = JSNum.num (70 / (1.75 * 1.75)))) := by
  refine ⟨rfl, ⟨_, startSession_eval st u pi b profile now, rfl, ?_, ?_⟩⟩
  · rintro (rfl | rfl) <;> rfl
  · rintro rfl
    show (let h := JSNum.div (jsOptOrElse none 175) (JSNum.num 100)
          let w := jsOptOrElse none 70
          if JSNum.jsGt h (JSNum.num 0) then JSNum.div w (JSNum.mul h h)
          else JSNum.num 22) = JSNum.num (70 / (1.75 * 1.75))
    simp only [jsOptOrElse]
    rw [JSNum.div_num_num _ (by norm_num : (100 : ℝ) ≠ 0)]
    rw [if_pos (by simp only [JSNum.jsGt_num_num]; norm_num)]
    rw [JSNum.mul_num_num, JSNum.div_num_num _ (by norm_num : (175 / 100 : ℝ) * (175 / 100) ≠ 0)]
    norm_num

/-- C7 counterexample: when the profile lookup throws, the stored BMI is
22.0, which differs from the BMI computed from the claimed defaults
(70 / 1.75² ≈ 22.86). -/
theorem c7_counterexample :
    (∃ s, (startSession emptyState "u" none
        ⟨some (JSNum.num 25), some (JSNum.num 50), some (JSNum.num 400), some (JSNum.num 70)⟩
        ProfileLookup.failure 0).1.sessionStore "u" = some s ∧ s.bmi = JSNum.num 22) ∧
    (22 : ℝ) ≠ 70 / (1.75 * 1.75) := by
  exact ⟨⟨_, startSession_eval _ _ _ _ _ _, rfl⟩, by norm_num⟩

/-- C10: completing a session via saveSession removes the in-memory session
but leaves the intensity history untouched, and a session started right
afterwards still sees the history accumulated during the previous session. -/
theorem c10_saveSession (st : ServerState) (u : String) (pi : Option JSNum)
    (b : BaselineInput) (profile : ProfileLookup) (now : ℕ) (hu : u ≠ "") :
    (saveSession st u true).2 = true ∧
    (saveSession st u true).1.sessionStore u = none ∧
    (saveSession st u true).1.intensityHistory = st.intensityHistory ∧
    (startSession (saveSession st u true).1 u pi b profile now).1.intensityHistory =
      st.intensityHistory := by
  unfold saveSession
  rw [if_neg (by simp [hu])]
  rcases h1 : st.sessionStore u with _ | s <;>
    simp [h1, Function.update_same] <;>
    (unfold startSession; rfl)


/-- C4 witness: instantiated on the empty server state. -/
theorem c4_witness :
    ((((saveEnvironmentData emptyState
        ⟨"alice", JSNum.num 25, JSNum.num 50, JSNum.num 400, JSNum.num 70,
          JSNum.num 0, JSNum.num 0⟩).1.intensityHistory "alice").getD []).length ≤ 5) ∧
    (∀ v1 v2 v3 v4 v5 v6 : JSNum,
      List.foldl pushIntensity [] [v1, v2, v3, v4, v5, v6] = [v2, v3, v4, v5, v6]) :=
  c4_history_bound emptyState
    ⟨"alice", JSNum.num 25, JSNum.num 50, JSNum.num 400, JSNum.num 70,
      JSNum.num 0, JSNum.num 0⟩ "alice" (by simp [emptyState])

/-- C6 witness: instantiated on the mid-session state for "alice". -/
theorem c6_witness :
    (resetSession stValid "alice").2 = true ∧
    (resetSession stValid "alice").1.sessionStore "alice" = none ∧
    (resetSession stValid "alice").1.intensityHistory "alice" = none ∧
    resetSession (resetSession stValid "alice").1 "alice" = resetSession stValid "alice" ∧
    (∃ r, (saveEnvironmentData (resetSession stValid "alice").1
        ⟨"alice", JSNum.num 25, JSNum.num 50, JSNum.num 400, JSNum.num 70,
          JSNum.num 0, JSNum.num 0⟩).2 = Except.ok r ∧
      r.intensity = JSNum.num 0 ∧ r.message = StatusMessage.readyToMeasure ∧
      r.alertLevel = AlertLevel.none ∧ r.alertMessage = none) :=
  c6_resetSession stValid "alice"
    ⟨"alice", JSNum.num 25, JSNum.num 50, JSNum.num 400, JSNum.num 70,
      JSNum.num 0, JSNum.num 0⟩ (by decide) rfl

/-- C7 witness: a failed profile lookup still succeeds and stores BMI 22.0. -/
theorem c7_witness :
    (startSession emptyState "u" none
        ⟨some (JSNum.num 25), some (JSNum.num 50), some (JSNum.num 400), some (JSNum.num 70)⟩
        ProfileLookup.failure 0).2 = true ∧
    (∃ s, (startSession emptyState "u" none
        ⟨some (JSNum.num 25), some (JSNum.num 50), some (JSNum.num 400), some (JSNum.num 70)⟩
        ProfileLookup.failure 0).1.sessionStore "u" = some s ∧ s.bmi = JSNum.num 22) := by
  obtain ⟨h1, s, hs, hhi, hb, hfd⟩ := c7_amended emptyState "u" none
    ⟨some (JSNum.num 25), some (JSNum.num 50), some (JSNum.num 400), some (JSNum.num 70)⟩
    ProfileLookup.failure 0
  exact ⟨h1, s, hs, hb (Or.inl rfl)⟩

/-- C10 witness: instantiated on the mid-session state for "alice". -/
theorem c10_witness :
    (saveSession stValid "alice" true).2 = true ∧
    (saveSession stValid "alice" true).1.sessionStore "alice" = none ∧
    (saveSession stValid "alice" true).1.intensityHistory = stValid.intensityHistory ∧
    (startSession (saveSession stValid "alice" true).1 "alice" none
        ⟨none, none, none, none⟩ ProfileLookup.missing 0).1.intensityHistory =
      stValid.intensityHistory :=
  c10_saveSession stValid "alice" none ⟨none, none, none, none⟩
    ProfileLookup.missing 0 (by decide)

/-- C9: the heat-index function returns 0 when the temperature is absent and
the temperature unchanged when only the humidity is absent; a relative
humidity outside [0,100] yields the same result as the clamped value; and on
finite inputs with humidity already in range it computes exactly the
spec's Rothfusz regression, converted back to Celsius and rounded to one
decimal place.  (It is a pure function by construction.) -/
theorem c9_heatIndex :
    (∀ rh : Option JSNum, computeHeatIndex none rh = JSNum.num 0) ∧
    (∀ tv : JSNum, computeHeatIndex (some tv) none = tv) ∧
    (∀ (tv : JSNum) (x : ℝ), 100 < x →
      computeHeatIndex (some tv) (some (JSNum.num x)) =
        computeHeatIndex (some tv) (some (JSNum.num 100))) ∧
    (∀ (tv : JSNum) (x : ℝ), x < 0 →
      computeHeatIndex (some tv) (some (JSNum.num x)) =
        computeHeatIndex (some tv) (some (JSNum.num 0))) ∧
    (∀ a r : ℝ, 0 ≤ r → r ≤ 100 →
      computeHeatIndex (some (JSNum.num a)) (some (JSNum.num r)) =
        JSNum.num (specHeatIndex a r)) := by
  refine ⟨fun rh => rfl, fun tv => rfl, ?_, ?_, ?_⟩
  · intro tv x hx
    have hR : JSNum.jsMin (JSNum.num 100) (JSNum.jsMax (JSNum.num 0) (JSNum.num x)) =
        JSNum.jsMin (JSNum.num 100) (JSNum.jsMax (JSNum.num 0) (JSNum.num 100)) := by
      simp only [JSNum.jsMax_num_num, JSNum.jsMin_num_num, JSNum.num_injEq]
      rw [max_eq_right (by linarith), min_eq_left (by linarith)]
      norm_num
    simp only [computeHeatIndex]
    rw [hR]
  · intro tv x hx
    have hR : JSNum.jsMin (JSNum.num 100) (JSNum.jsMax (JSNum.num 0) (JSNum.num x)) =
        JSNum.jsMin (JSNum.num 100) (JSNum.jsMax (JSNum.num 0) (JSNum.num 0)) := by
      simp only [JSNum.jsMax_num_num, JSNum.jsMin_num_num, JSNum.num_injEq]
      rw [max_eq_left (by linarith)]
      norm_num
    simp only [computeHeatIndex]
    rw [hR]
  · intro a r h0 h100
    rw [computeHeatIndex_num_num, max_eq_right h0, min_eq_right h100]

/-- C9 witness: humidity 150 behaves as 100, and at 25 °C / 50 % the result
is the Rothfusz value. -/
theorem c9_witness :
    computeHeatIndex (some (JSNum.num 25)) (some (JSNum.num 150)) =
      computeHeatIndex (some (JSNum.num 25)) (some (JSNum.num 100)) ∧
    computeHeatIndex (some (JSNum.num 25)) (some (JSNum.num 50)) =
      JSNum.num (specHeatIndex 25 50) :=
  ⟨c9_heatIndex.2.2.1 (JSNum.num 25) 150 (by norm_num),
    c9_heatIndex.2.2.2.2 25 50 (by norm_num) (by norm_num)⟩


-- NaN-freedom of the three deltas.

theorem absSub_num_ne_nan (x : ℝ) {b : JSNum} (hb : ¬ b = .nan) :
    JSNum.jsAbs (JSNum.sub (.num x) b) ≠ .nan := by
  cases b with
  | nan => exact absurd rfl hb
  | inf => simp [JSNum.sub, JSNum.jsAbs]
  | ninf => simp [JSNum.sub, JSNum.jsAbs]
  | num y => simp [JSNum.sub, JSNum.jsAbs]

theorem max0Sub_num_ne_nan (g : ℝ) {b : JSNum} (hb : ¬ b = .nan) :
    JSNum.jsMax (JSNum.num 0) (JSNum.sub (.num g) b) ≠ .nan := by
  cases b with
  | nan => exact absurd rfl hb
  | inf => simp [JSNum.sub, JSNum.jsMax]
  | ninf => simp [JSNum.sub, JSNum.jsMax]
  | num y => simp [JSNum.sub, JSNum.jsMax]

theorem jsOrElse_isNum {v : JSNum} (h : v.isNum ∨ v = .nan) (d : ℝ) :
    (jsOrElse v d).isNum := by
  rcases h with h | rfl
  · obtain ⟨x, rfl⟩ := (JSNum.isNum_iff v).mp h
    unfold jsOrElse
    split_ifs <;> exact trivial
  · simp

theorem jsMax0_ne_nan {v : JSNum} (h : v ≠ .nan) :
    JSNum.jsMax (JSNum.num 0) v ≠ .nan := by
  cases v <;> simp_all [JSNum.jsMax]

/-- The concrete valid baseline really passes the code's validity check. -/
theorem validBaseline_ok : ¬ baselineInvalid validSession.baseline := by
  obtain ⟨x, hx⟩ := computeHeatIndex_isNum (25 : ℝ)
    (show (JSNum.num 50 : JSNum) ≠ .nan by simp)
  simp only [baselineInvalid, validSession, validBaseline, not_or]
  refine ⟨by simp, by simp, ?_, by simp, by simp⟩
  rw [hx]
  simp

/-- C1 (amended): with no session the returned intensity is 0; with a
session whose baseline fails the code's validity check (`hi`/`gas`/`hr`
must be numbers that are not NaN — finiteness is not required) the
intensity is the fixed 1; and with a valid baseline the intensity is an
integer in [1,10] provided no NaN enters the pipeline: the sample's
temperature is finite, its humidity is not NaN, and the signed gas and
heart-rate differences against the baseline are not NaN — they are NaN
exactly when the sample value is NaN, or when the sample value and the
baseline entry are infinities of the same sign (e.g. gasValue = Infinity
against an Infinity gas baseline, which the validity check accepts) — and
the buffered history entries are finite.  (As originally stated — for
every numeric sample — the claim fails: see the counterexample.) -/
theorem c1_amended (st : ServerState) (d : SampleInput) (hu : d.userId ≠ "") :
    (st.sessionStore d.userId = none →
      ∃ r, (saveEnvironmentData st d).2 = Except.ok r ∧ r.intensity = JSNum.num 0) ∧
    (∀ s, st.sessionStore d.userId = some s → baselineInvalid s.baseline →
      ∃ r, (saveEnvironmentData st d).2 = Except.ok r ∧ r.intensity = JSNum.num 1) ∧
    (∀ s, st.sessionStore d.userId = some s → ¬ baselineInvalid s.baseline →
      d.temperature.isNum → d.humidity ≠ JSNum.nan →
      JSNum.sub d.gasValue (jsVal s.baseline.gas) ≠ JSNum.nan →
      JSNum.sub (jsOrElse d.heartRate 0) (jsVal s.baseline.hr) ≠ JSNum.nan →
      (∀ v ∈ (st.intensityHistory d.userId).getD [], v.isNum) →
      ∃ r, ∃ k : ℤ, (saveEnvironmentData st d).2 = Except.ok r ∧
        r.intensity = JSNum.num k ∧ 1 ≤ k ∧ k ≤ 10) := by
  refine ⟨fun hs => ?_, fun s hs hb => ?_, fun s hs hb ht hh hg hhr hall => ?_⟩
  · rw [save_noSession st d hu hs]
    exact ⟨_, rfl, rfl⟩
  · rw [save_invalid st d s hu hs hb]
    exact ⟨_, rfl, rfl⟩
  · rw [save_valid st d s hu hs hb]
    simp only [baselineInvalid, not_or] at hb
    obtain ⟨hb1, hb2, hb3, hb4, hb5⟩ := hb
    obtain ⟨a, ha⟩ := (JSNum.isNum_iff _).mp ht
    obtain ⟨x, hx⟩ := computeHeatIndex_isNum a hh
    have hd1 : JSNum.jsAbs (JSNum.sub
        (computeHeatIndex (some d.temperature) (some d.humidity)) s.baseline.hi) ≠
        JSNum.nan := by
      rw [ha, hx]
      exact absSub_num_ne_nan x hb3
    have hd2 : JSNum.jsMax (JSNum.num 0)
        (JSNum.sub d.gasValue (jsVal s.baseline.gas)) ≠ JSNum.nan :=
      jsMax0_ne_nan hg
    have hd3 : JSNum.jsMax (JSNum.num 0)
        (JSNum.sub (jsOrElse d.heartRate 0) (jsVal s.baseline.hr)) ≠ JSNum.nan :=
      jsMax0_ne_nan hhr
    obtain ⟨k, hk, hk1, hk2⟩ := ifd_result (getBMISensitivityFactor s.bmi) hd1 hd2 hd3
      (parseNumberOr0 d.predictedHI) (parseNumberOr0 d.predictedGas) hall
    exact ⟨_, k, rfl, hk, hk1, hk2⟩

/-- C1 counterexample: with a perfectly valid (finite) baseline and the
numeric sample whose temperature is NaN, the returned intensity is NaN —
not an integer in [1,10]. -/
theorem c1_counterexample :
    ¬ baselineInvalid validSession.baseline ∧
    (saveEnvironmentData stValid
        ⟨"alice", JSNum.nan, JSNum.num 50, JSNum.num 400, JSNum.num 70,
          JSNum.num 0, JSNum.num 0⟩).2 =
      Except.ok ⟨JSNum.nan, StatusMessage.lightExercise, AlertLevel.none, none⟩ := by
  refine ⟨validBaseline_ok, ?_⟩
  rw [save_valid stValid _ validSession (by decide) (by simp [stValid]) validBaseline_ok]
  norm_num [stValid, validSession, validBaseline, intensityFromDeltas, normalizedTerm_nan,
    computeHeatIndex_nan_temp, pushIntensity, smoothIntensity, finalizeIntensity,
    trendMessagesOf, parseNumberOr0, trendAdjustmentOf, classifyAlerts, jsVal]

/-- C1 witness: the amended theorem applied to the valid session and a
finite sample identical to the baseline. -/
theorem c1_witness :
    ("alice" : String) ≠ "" ∧
    (∃ r, ∃ k : ℤ, (saveEnvironmentData stValid
        ⟨"alice", JSNum.num 25, JSNum.num 50, JSNum.num 400, JSNum.num 70,
          JSNum.num 0, JSNum.num 0⟩).2 = Except.ok r ∧
      r.intensity = JSNum.num k ∧ 1 ≤ k ∧ k ≤ 10) :=
  ⟨by decide,
    (c1_amended stValid
      ⟨"alice", JSNum.num 25, JSNum.num 50, JSNum.num 400, JSNum.num 70,
        JSNum.num 0, JSNum.num 0⟩ (by decide)).2.2 validSession
      (by simp [stValid]) validBaseline_ok trivial (by simp)
      (by simp [validSession, validBaseline])
      (by norm_num [validSession, validBaseline, jsOrElse, JSNum.isFalsy])
      (by simp [stValid])⟩


/-- C5 counterexample: the baseline is invalid (NaN heart rate), so the
engine is in its degraded intensity-1 mode, yet the alert block still runs
and fires a critical gas alert (gas delta 120 ≥ 100). -/
theorem c5_counterexample :
    baselineInvalid invalidHrSession.baseline ∧
    (saveEnvironmentData stInvalidHr
        ⟨"alice", JSNum.nan, JSNum.num 50, JSNum.num 520, JSNum.num 70,
          JSNum.num 0, JSNum.num 0⟩).2 =
      Except.ok ⟨JSNum.num 1, StatusMessage.baselineSettling, AlertLevel.critical,
        some [AlertCause.gasDegraded]⟩ := by
  have hb : baselineInvalid invalidHrSession.baseline := by
    simp [baselineInvalid, invalidHrSession, invalidHrBaseline]
  refine ⟨hb, ?_⟩
  rw [save_invalid stInvalidHr _ invalidHrSession (by decide) (by simp [stInvalidHr]) hb]
  norm_num [invalidHrSession, invalidHrBaseline, computeHeatIndex_nan_temp,
    classifyAlerts, jsVal]

/-- C5 (amended): with no session the alert level is `none` and the alert
message is null.  During a session the alert block runs even when the
baseline is invalid (the baseline object is always truthy); the claimed
"no alerts in degraded mode" only holds when the heat-index and gas
baselines are themselves NaN, which silences their thresholds, while the
degraded intensity 1 silences the intensity thresholds. -/
theorem c5_amended (st : ServerState) (d : SampleInput) (hu : d.userId ≠ "") :
    (st.sessionStore d.userId = none →
      ∃ r, (saveEnvironmentData st d).2 = Except.ok r ∧
        r.alertLevel = AlertLevel.none ∧ r.alertMessage = none) ∧
    (∀ s, st.sessionStore d.userId = some s → baselineInvalid s.baseline →
      s.baseline.hi = JSNum.nan → jsVal s.baseline.gas = JSNum.nan →
      ∃ r, (saveEnvironmentData st d).2 = Except.ok r ∧ r.intensity = JSNum.num 1 ∧
        r.alertLevel = AlertLevel.none ∧ r.alertMessage = none) := by
  refine ⟨fun hs => ?_, fun s hs hb hhi hgas => ?_⟩
  · rw [save_noSession st d hu hs]
    exact ⟨_, rfl, rfl, rfl⟩
  · rw [save_invalid st d s hu hs hb, hhi, hgas]
    refine ⟨_, rfl, rfl, ?_, ?_⟩ <;>
      norm_num [classifyAlerts]

/-- C5 witness: the amended theorem applied to a session whose baseline is
NaN in all scored fields. -/
theorem c5_witness :
    ∃ r, (saveEnvironmentData stAllNan
        ⟨"alice", JSNum.num 25, JSNum.num 50, JSNum.num 400, JSNum.num 70,
          JSNum.num 0, JSNum.num 0⟩).2 = Except.ok r ∧ r.intensity = JSNum.num 1 ∧
      r.alertLevel = AlertLevel.none ∧ r.alertMessage = none :=
  (c5_amended stAllNan
    ⟨"alice", JSNum.num 25, JSNum.num 50, JSNum.num 400, JSNum.num 70,
      JSNum.num 0, JSNum.num 0⟩ (by decide)).2 allNanSession
    (by simp [stAllNan]) (by simp [baselineInvalid, allNanSession, allNanBaseline])
    rfl rfl


/-- The sample's fields reach the computation only through `Number` /
`parseNumber ?? 0` / `|| 0`: inputs with equal coerced views give equal
results. -/
theorem save_congr (st : ServerState) (u : String) (t h g hr hr' p p' pg pg' : JSNum)
    (hhr : jsOrElse hr 0 = jsOrElse hr' 0)
    (hp : parseNumberOr0 p = parseNumberOr0 p')
    (hpg : parseNumberOr0 pg = parseNumberOr0 pg') :
    saveEnvironmentData st ⟨u, t, h, g, hr, p, pg⟩ =
      saveEnvironmentData st ⟨u, t, h, g, hr', p', pg'⟩ := by
  unfold saveEnvironmentData
  simp only [hp, hpg, hhr]

/-- The concrete zero-temperature baseline passes the validity check. -/
theorem zeroBaseline_ok : ¬ baselineInvalid zeroSession.baseline := by
  obtain ⟨x, hx⟩ := computeHeatIndex_isNum (0 : ℝ)
    (show (JSNum.num 50 : JSNum) ≠ .nan by simp)
  simp only [baselineInvalid, zeroSession, zeroBaseline, not_or]
  refine ⟨by simp, by simp, ?_, by simp, by simp⟩
  rw [hx]
  simp

/-- Zero deltas with sensitivity 1, no trends and an empty buffer produce
exactly the minimum intensity 1. -/
theorem ifd_zero_eval :
    (intensityFromDeltas 1 (JSNum.num 0) (JSNum.num 0) (JSNum.num 0) 0 0 []).2 =
      JSNum.num 1 := by
  have hnorm : ∀ c : ℝ, 0 < c → normalizedTerm (JSNum.num 0) c = JSNum.num 0 := by
    intro c hc
    rw [normalizedTerm_num hc, max_self, zero_div, Real.sqrt_zero,
      min_eq_right zero_le_one]
  have h1 : (0 : ℝ) < max 0.1 (3.0 * 1) := by norm_num [lt_max_iff]
  have h2 : (0 : ℝ) < max 1.0 (100.0 * 1) := by norm_num [lt_max_iff]
  have h3 : (0 : ℝ) < (60 : ℝ) := by norm_num
  have htr : trendAdjustmentOf 0 0 = 0 := by norm_num [trendAdjustmentOf]
  simp only [intensityFromDeltas, hnorm _ h1, hnorm _ h2, hnorm _ h3, htr,
    JSNum.mul_num_num, JSNum.add_num_num, JSNum.jsMin_num_num]
  have hmin : min (1 : ℝ) (0 * 0.5 + 0 * 0.25 + 0 * 0.25 + 0) = 0 := by norm_num
  rw [hmin, JSNum.pow08_num_nonneg le_rfl, Real.zero_rpow (by norm_num)]
  simp only [JSNum.mul_num_num, JSNum.add_num_num, zero_mul, add_zero]
  have hp : pushIntensity [] (JSNum.num 1) = [JSNum.num 1] := by
    norm_num [pushIntensity]
  rw [hp]
  have hsm : smoothIntensity [JSNum.num 1] (JSNum.num 1) = JSNum.num 1 := by
    norm_num [smoothIntensity]
  rw [hsm, finalize_num_eval]
  norm_num

/-- C2 counterexample: with a valid session, a NaN temperature is used as
is (the result's intensity is NaN), while the same sample with temperature
sanitized to 0 yields intensity 1 — so non-finite temperatures are neither
sanitized to 0 nor skipped. -/
theorem c2_counterexample :
    (saveEnvironmentData stZero
        ⟨"alice", JSNum.nan, JSNum.num 50, JSNum.num 400, JSNum.num 70,
          JSNum.num 0, JSNum.num 0⟩).2 =
      Except.ok ⟨JSNum.nan, StatusMessage.lightExercise, AlertLevel.none, none⟩ ∧
    (saveEnvironmentData stZero
        ⟨"alice", JSNum.num 0, JSNum.num 50, JSNum.num 400, JSNum.num 70,
          JSNum.num 0, JSNum.num 0⟩).2 =
      Except.ok ⟨JSNum.num 1, StatusMessage.lightExercise, AlertLevel.none, none⟩ := by
  constructor
  · rw [save_valid stZero _ zeroSession (by decide) (by simp [stZero]) zeroBaseline_ok]
    norm_num [stZero, zeroSession, zeroBaseline, intensityFromDeltas, normalizedTerm_nan,
      computeHeatIndex_nan_temp, pushIntensity, smoothIntensity, finalizeIntensity,
      trendMessagesOf, parseNumberOr0, trendAdjustmentOf, classifyAlerts, jsVal]
  · rw [save_valid stZero _ zeroSession (by decide) (by simp [stZero]) zeroBaseline_ok]
    obtain ⟨x, hx⟩ := computeHeatIndex_isNum (0 : ℝ)
      (show (JSNum.num 50 : JSNum) ≠ .nan by simp)
    have hsens : getBMISensitivityFactor (JSNum.num 22) = 1 := by
      norm_num [getBMISensitivityFactor]
    have h70 : jsOrElse (JSNum.num 70) 0 = JSNum.num 70 := jsOrElse_num 0 (by norm_num)
    simp only [stZero, zeroSession, zeroBaseline, jsVal_some, hx, hsens, h70,
      JSNum.sub_num_num, sub_self, JSNum.jsAbs_num, abs_zero, JSNum.jsMax_num_num,
      max_self, parseNumberOr0, Option.getD_none]
    rw [ifd_zero_eval]
    norm_num [trendMessagesOf, classifyAlerts]

/-- C2 (amended): only the two trend inputs are sanitized (any non-finite
predictedHI/predictedGas behaves as 0), and a NaN heart rate coerces to 0
through `|| 0`; the computation never rejects anything except a falsy
userId, for which it errors before computing — but temperature, humidity
and gasValue are used unsanitized (see the counterexample). -/
theorem c2_amended (st : ServerState) (d : SampleInput) :
    (d.userId = "" → (saveEnvironmentData st d).2 = Except.error "userId required") ∧
    (d.userId ≠ "" → ∃ r, (saveEnvironmentData st d).2 = Except.ok r) ∧
    (¬ d.predictedHI.isNum →
      saveEnvironmentData st d =
        saveEnvironmentData st { d with predictedHI := JSNum.num 0 }) ∧
    (¬ d.predictedGas.isNum →
      saveEnvironmentData st d =
        saveEnvironmentData st { d with predictedGas := JSNum.num 0 }) ∧
    (saveEnvironmentData st { d with heartRate := JSNum.nan } =
      saveEnvironmentData st { d with heartRate := JSNum.num 0 }) := by
  obtain ⟨u, t, h, g, hr, p, pg⟩ := d
  refine ⟨fun hu => ?_, fun hu => ?_, fun hp => ?_, fun hpg => ?_, ?_⟩
  · rw [save_error _ _ hu]
  · rcases hs : st.sessionStore u with _ | s
    · rw [save_noSession _ _ hu hs]; exact ⟨_, rfl⟩
    · by_cases hb : baselineInvalid s.baseline
      · rw [save_invalid _ _ s hu hs hb]; exact ⟨_, rfl⟩
      · rw [save_valid _ _ s hu hs hb]; exact ⟨_, rfl⟩
  · exact save_congr st u t h g hr hr p (JSNum.num 0) pg pg rfl
      (by cases p <;> simp_all [parseNumberOr0, JSNum.isNum]) rfl
  · exact save_congr st u t h g hr hr p p pg (JSNum.num 0) rfl rfl
      (by cases pg <;> simp_all [parseNumberOr0, JSNum.isNum])
  · exact save_congr st u t h g JSNum.nan (JSNum.num 0) p p pg pg
      (by simp [jsOrElse, JSNum.isFalsy]) rfl rfl

/-- C2 witness: a NaN predictedHI computes, and behaves exactly as 0. -/
theorem c2_witness :
    (∃ r, (saveEnvironmentData stValid
        ⟨"alice", JSNum.num 25, JSNum.num 50, JSNum.num 400, JSNum.num 70,
          JSNum.nan, JSNum.num 0⟩).2 = Except.ok r) ∧
    saveEnvironmentData stValid
        ⟨"alice", JSNum.num 25, JSNum.num 50, JSNum.num 400, JSNum.num 70,
          JSNum.nan, JSNum.num 0⟩ =
      saveEnvironmentData stValid
        ⟨"alice", JSNum.num 25, JSNum.num 50, JSNum.num 400, JSNum.num 70,
          JSNum.num 0, JSNum.num 0⟩ := by
  have hmain := c2_amended stValid
    ⟨"alice", JSNum.num 25, JSNum.num 50, JSNum.num 400, JSNum.num 70,
      JSNum.nan, JSNum.num 0⟩
  exact ⟨hmain.2.1 (by decide), hmain.2.2.1 (by simp [JSNum.isNum])⟩


-- Monotonicity helpers.

theorem smoothPush_mono {hist0 : List JSNum} (hall : ∀ v ∈ hist0, v.isNum)
    {e e' : ℝ} (h : e ≤ e') :
    JSNum.valOr0 (finalizeIntensity
        (smoothIntensity (pushIntensity hist0 (.num e)) (.num e))) ≤
      JSNum.valOr0 (finalizeIntensity
        (smoothIntensity (pushIntensity hist0 (.num e')) (.num e'))) := by
  rw [pushIntensity_eq_append, pushIntensity_eq_append]
  refine smoothFinalize_mono ?_ h
  split_ifs
  · exact fun v hv => hall v (List.mem_of_mem_tail hv)
  · exact hall

theorem discretize_mono {S S' : ℝ} (hS0 : 0 ≤ S) (h : S ≤ S') :
    1 + min 1 S ^ (0.8 : ℝ) * 9 ≤ 1 + min 1 S' ^ (0.8 : ℝ) * 9 := by
  have hmin : min 1 S ≤ min 1 S' := min_le_min le_rfl h
  have h0 : (0 : ℝ) ≤ min 1 S := le_min zero_le_one hS0
  have hpow := Real.rpow_le_rpow h0 hmin (by norm_num : (0 : ℝ) ≤ 0.8)
  nlinarith

theorem normR_mono {x y : ℝ} (hxy : x ≤ y) {c : ℝ} (hc : 0 < c) :
    min 1 (Real.sqrt (max 0 x / c)) ≤ min 1 (Real.sqrt (max 0 y / c)) :=
  min_le_min le_rfl (Real.sqrt_le_sqrt
    ((div_le_div_iff_of_pos_right hc).mpr (max_le_max le_rfl hxy)))

theorem normR_nonneg (x c : ℝ) : 0 ≤ min 1 (Real.sqrt (max 0 x / c)) :=
  le_min zero_le_one (Real.sqrt_nonneg _)

/-- C8: for a fixed session (sensitivity), fixed trends and a fixed history
of finite entries, the final intensity is non-decreasing separately in the
heart-rate delta, the heat-index delta and the gas delta. -/
theorem c8_monotonicity (s pHI pGas : ℝ) (hist0 : List JSNum)
    (hall : ∀ v ∈ hist0, v.isNum) (a b : ℝ) {x y : ℝ} (hxy : x ≤ y) :
    JSNum.valOr0 ((intensityFromDeltas s (JSNum.num a) (JSNum.num b) (JSNum.num x)
        pHI pGas hist0).2) ≤
      JSNum.valOr0 ((intensityFromDeltas s (JSNum.num a) (JSNum.num b) (JSNum.num y)
        pHI pGas hist0).2) ∧
    JSNum.valOr0 ((intensityFromDeltas s (JSNum.num x) (JSNum.num a) (JSNum.num b)
        pHI pGas hist0).2) ≤
      JSNum.valOr0 ((intensityFromDeltas s (JSNum.num y) (JSNum.num a) (JSNum.num b)
        pHI pGas hist0).2) ∧
    JSNum.valOr0 ((intensityFromDeltas s (JSNum.num a) (JSNum.num x) (JSNum.num b)
        pHI pGas hist0).2) ≤
      JSNum.valOr0 ((intensityFromDeltas s (JSNum.num a) (JSNum.num y) (JSNum.num b)
        pHI pGas hist0).2) := by
  have hcHI : (0 : ℝ) < max 0.1 (3.0 * s) := lt_of_lt_of_le (by norm_num) (le_max_left _ _)
  have hcGas : (0 : ℝ) < max 1.0 (100.0 * s) := lt_of_lt_of_le (by norm_num) (le_max_left _ _)
  have hc60 : (0 : ℝ) < 60 := by norm_num
  have ht := trendAdjustmentOf_nonneg pHI pGas
  refine ⟨?_, ?_, ?_⟩
  · obtain ⟨e, he, hef⟩ := ifd_eval s a b x pHI pGas hist0
    obtain ⟨e', he', hef'⟩ := ifd_eval s a b y pHI pGas hist0
    rw [he, he']
    refine smoothPush_mono hall ?_
    rw [hef, hef']
    refine discretize_mono ?_ ?_
    · have n1 := normR_nonneg x 60
      have n2 := normR_nonneg a (max 0.1 (3.0 * s))
      have n3 := normR_nonneg b (max 1.0 (100.0 * s))
      nlinarith
    · have hm := normR_mono hxy hc60
      nlinarith
  · obtain ⟨e, he, hef⟩ := ifd_eval s x a b pHI pGas hist0
    obtain ⟨e', he', hef'⟩ := ifd_eval s y a b pHI pGas hist0
    rw [he, he']
    refine smoothPush_mono hall ?_
    rw [hef, hef']
    refine discretize_mono ?_ ?_
    · have n1 := normR_nonneg b 60
      have n2 := normR_nonneg x (max 0.1 (3.0 * s))
      have n3 := normR_nonneg a (max 1.0 (100.0 * s))
      nlinarith
    · have hm := normR_mono hxy hcHI
      nlinarith
  · obtain ⟨e, he, hef⟩ := ifd_eval s a x b pHI pGas hist0
    obtain ⟨e', he', hef'⟩ := ifd_eval s a y b pHI pGas hist0
    rw [he, he']
    refine smoothPush_mono hall ?_
    rw [hef, hef']
    refine discretize_mono ?_ ?_
    · have n1 := normR_nonneg b 60
      have n2 := normR_nonneg a (max 0.1 (3.0 * s))
      have n3 := normR_nonneg x (max 1.0 (100.0 * s))
      nlinarith
    · have hm := normR_mono hxy hcGas
      nlinarith

/-- C8 witness: instantiated at sensitivity 1, no trends, empty history,
fixed other deltas 0, comparing delta 0 with delta 60. -/
theorem c8_witness :
    (JSNum.valOr0 ((intensityFromDeltas 1 (JSNum.num 0) (JSNum.num 0) (JSNum.num 0)
        0 0 []).2) ≤
      JSNum.valOr0 ((intensityFromDeltas 1 (JSNum.num 0) (JSNum.num 0) (JSNum.num 60)
        0 0 []).2)) ∧
    (JSNum.valOr0 ((intensityFromDeltas 1 (JSNum.num 0) (JSNum.num 0) (JSNum.num 0)
        0 0 []).2) ≤
      JSNum.valOr0 ((intensityFromDeltas 1 (JSNum.num 60) (JSNum.num 0) (JSNum.num 0)
        0 0 []).2)) ∧
    (JSNum.valOr0 ((intensityFromDeltas 1 (JSNum.num 0) (JSNum.num 0) (JSNum.num 0)
        0 0 []).2) ≤
      JSNum.valOr0 ((intensityFromDeltas 1 (JSNum.num 0) (JSNum.num 60) (JSNum.num 0)
        0 0 []).2)) :=
  c8_monotonicity 1 0 0 [] (by simp) 0 0 (by norm_num : (0 : ℝ) ≤ 60)

end
